import Mathlib

/-!
Verification of the grammatical inflection engine of the isnss-extractor
repository (the `Inflection` class).  Strings are modelled as lists of
characters; the engine is embedded function by function.  JavaScript
behaviour that can throw (reading `word[0]` of an empty word) is modelled
with `Option`.
-/

set_option maxRecDepth 100000

namespace Inflection

abbrev Str := List Char

/-- Case mapping pairs (lower, upper) for the characters occurring in the
engine's tables and inputs; models `String.prototype.toLowerCase` /
`toUpperCase` (and the case folding of the `iu` regex flags) on this
alphabet.  Characters outside the table are fixed points. -/
def czMap : List (Char × Char) :=
  [('a', 'A'), ('b', 'B'), ('c', 'C'), ('d', 'D'), ('e', 'E'), ('f', 'F'),
   ('g', 'G'), ('h', 'H'), ('i', 'I'), ('j', 'J'), ('k', 'K'), ('l', 'L'),
   ('m', 'M'), ('n', 'N'), ('o', 'O'), ('p', 'P'), ('q', 'Q'), ('r', 'R'),
   ('s', 'S'), ('t', 'T'), ('u', 'U'), ('v', 'V'), ('w', 'W'), ('x', 'X'),
   ('y', 'Y'), ('z', 'Z'),
   ('á', 'Á'), ('č', 'Č'), ('ď', 'Ď'), ('é', 'É'), ('ě', 'Ě'), ('í', 'Í'),
   ('ň', 'Ň'), ('ó', 'Ó'), ('ř', 'Ř'), ('š', 'Š'), ('ť', 'Ť'), ('ú', 'Ú'),
   ('ů', 'Ů'), ('ý', 'Ý'), ('ž', 'Ž')]

def czLower (c : Char) : Char :=
  ((czMap.find? (fun p => p.2 == c)).map (fun p => p.1)).getD c

def czUpper (c : Char) : Char :=
  ((czMap.find? (fun p => p.1 == c)).map (fun p => p.2)).getD c

def lowerStr (s : Str) : Str := s.map czLower

/-- `word.replace(/di|ti|ni|dě|tě|ně/g, ...)` of the source: global
left-to-right replacement of the six digraphs by their palatalized
two-character markers. -/
def breakAccents : Str → Str
  | 'd' :: 'i' :: r => 'ď' :: 'i' :: breakAccents r
  | 't' :: 'i' :: r => 'ť' :: 'i' :: breakAccents r
  | 'n' :: 'i' :: r => 'ň' :: 'i' :: breakAccents r
  | 'd' :: 'ě' :: r => 'ď' :: 'e' :: breakAccents r
  | 't' :: 'ě' :: r => 'ť' :: 'e' :: breakAccents r
  | 'n' :: 'ě' :: r => 'ň' :: 'e' :: breakAccents r
  | c :: r => c :: breakAccents r
  | [] => []

/-- `word.replace(/ďi|ťi|ňi|ďe|ťe|ňe/g, ...)` of the source: the inverse
substitution applied after suffix concatenation. -/
def fixAccents : Str → Str
  | 'ď' :: 'i' :: r => 'd' :: 'i' :: fixAccents r
  | 'ť' :: 'i' :: r => 't' :: 'i' :: fixAccents r
  | 'ň' :: 'i' :: r => 'n' :: 'i' :: fixAccents r
  | 'ď' :: 'e' :: r => 'd' :: 'ě' :: fixAccents r
  | 'ť' :: 'e' :: r => 't' :: 'ě' :: fixAccents r
  | 'ň' :: 'e' :: r => 'n' :: 'ě' :: fixAccents r
  | c :: r => c :: fixAccents r
  | [] => []

/-- `capitalize`: uppercase the first character, keep the rest. -/
def capitalize : Str → Str
  | [] => []
  | c :: r => czUpper c :: r

/-- One item of a compiled suffix pattern: a plain character or a
single-character capturing class `([...])`.  Every bracketed class in the
pattern table is wrapped in a capture group, so these two forms cover the
whole regex subset used by the engine. -/
inductive Item where
  | lit : Char → Item
  | group : List Char → Item
deriving DecidableEq, Repr

/-- Read the characters of a class up to `])`, returning the class and the
rest of the specification. -/
def takeClass : Str → Option (List Char × Str)
  | ']' :: ')' :: r => some ([], r)
  | c :: r =>
    match takeClass r with
    | some (cls, rest) => some (c :: cls, rest)
    | none => none
  | [] => none

def parseItemsF : Nat → Str → Option (List Item)
  | _, [] => some []
  | 0, _ :: _ => none
  | f + 1, '(' :: '[' :: r =>
    match takeClass r with
    | some (cls, rest) =>
      match parseItemsF f rest with
      | some items => some (Item.group cls :: items)
      | none => none
    | none => none
  | f + 1, c :: r =>
    match parseItemsF f r with
    | some items => some (Item.lit c :: items)
    | none => none

/-- Compile the body of a suffix specification (everything after the
leading `-`) into a list of items; models `new RegExp(pattern.slice(1) + '$')`. -/
def parseItems (l : Str) : Option (List Item) := parseItemsF l.length l

/-- Case-insensitive character comparison (the `iu` regex flags). -/
def charEqCI (a b : Char) : Bool := czLower a == czLower b

def inClass (c : Char) (cls : List Char) : Bool := cls.any (fun p => charEqCI c p)

/-- Match an item list against an entire string, returning the captured
group characters in group order. -/
def itemsMatch : List Item → Str → Option (List Char)
  | [], [] => some []
  | Item.lit p :: is, c :: s =>
    if charEqCI c p then itemsMatch is s else none
  | Item.group cls :: is, c :: s =>
    if inClass c cls then
      match itemsMatch is s with
      | some caps => some (c :: caps)
      | none => none
    else none
  | _, _ => none

/-- Search for the leftmost start position from which the items match
through to the end of the word: the end-anchored regex search of
`word.match(regex)`.  Returns the start index (which is also
`word.length - matches[0].length`) and the captures. -/
def searchAt (items : List Item) : Str → Option (Nat × List Char)
  | [] =>
    match itemsMatch items [] with
    | some caps => some (0, caps)
    | none => none
  | c :: r =>
    match itemsMatch items (c :: r) with
    | some caps => some (0, caps)
    | none =>
      match searchAt items r with
      | some (k, caps) => some (k + 1, caps)
      | none => none

/-- The shared back-reference scratch array `this.replacements`.  Every
specification in the pattern table has at most two capture groups, so the
array is modelled by its first two slots. -/
structure St where
  r0 : Option Char
  r1 : Option Char
deriving DecidableEq, Repr

def St.init : St := ⟨none, none⟩

/-- `for (let i = matches.length - 1; i > 0; i--) replacements[i-1] = matches[matches.length - i]`:
with one capture, slot 0 receives it; with two captures, slot 0 receives
the second and slot 1 the first. -/
def assignRepl (caps : List Char) (st : St) : St :=
  match caps with
  | [] => st
  | [a] => ⟨some a, st.r1⟩
  | a :: b :: _ => ⟨some b, some a⟩

/-- `s.replace(key, value)` for a single-character key and value: replace
the first occurrence only. -/
def replaceFirstChar (k v : Char) : Str → Str
  | [] => []
  | c :: r => if c = k then v :: r else c :: replaceFirstChar k v r

/-- `for (let i in this.replacements) postfix = postfix.replace(i, this.replacements[i])`:
apply the stored back-references to the form template, ascending index
order, first occurrence of each digit key only. -/
def applyRepl (st : St) (t : Str) : Str :=
  let t1 := match st.r0 with
    | some v => replaceFirstChar '0' v t
    | none => t
  match st.r1 with
  | some v => replaceFirstChar '1' v t1
  | none => t1

/-- Split at the first occurrence of a character, if any
(`indexOf` + the two `slice`s of the source). -/
def splitFirst (k : Char) : Str → Option (Str × Str)
  | [] => none
  | c :: r =>
    if c = k then some ([], r)
    else
      match splitFirst k r with
      | some (a, b) => some (c :: a, b)
      | none => none

/-- `posSlash = postfix.indexOf('/'); postfix = animate ? postfix.slice(posSlash+1) : postfix.slice(0, posSlash)`. -/
def selectAnim (animate : Bool) (t : Str) : Str :=
  match splitFirst '/' t with
  | none => t
  | some (a, b) => if animate then b else a

/-- The pattern table `this.patterns`: each row is
[gender, matchSpec, form2, ..., form14]. -/
def patterns : List (List String) := [
  ["m", "-ký", "kého", "kému", "ký/kého", "ký", "kém", "kým", "ké/cí", "kých", "kým", "ké", "ké/cí", "kých", "kými"],
  ["m", "-rý", "rého", "rému", "rý/rého", "rý", "rém", "rým", "ré/ří", "rých", "rým", "ré", "ré/ří", "rých", "rými"],
  ["m", "-chý", "chého", "chému", "chý/chého", "chý", "chém", "chým", "ché/ší", "chých", "chým", "ché", "ché/ší", "chých", "chými"],
  ["m", "-hý", "hého", "hému", "hý/hého", "hý", "hém", "hým", "hé/zí", "hých", "hým", "hé", "hé/zí", "hých", "hými"],
  ["m", "-ý", "ého", "ému", "ý/ého", "ý", "ém", "ým", "é/í", "ých", "ým", "é", "é/í", "ých", "ými"],
  ["m", "-([aeěií])cí", "0cího", "0címu", "0cí/0cího", "0cí", "0cím", "0cím", "0cí", "0cích", "0cím", "0cí", "0cí", "0cích", "0cími"],
  ["f", "-([aeěií])cí", "0cí", "0cí", "0cí", "0cí", "0cí", "0cí", "0cí", "0cích", "0cím", "0cí", "0cí", "0cích", "0cími"],
  ["s", "-([aeěií])cí", "0cího", "0címu", "0cí/0cího", "0cí", "0cím", "0cím", "0cí", "0cích", "0cím", "0cí", "0cí", "0cích", "0cími"],
  ["m", "-([bcčdhklmnprsštvzž])ní", "0ního", "0nímu", "0ní/0ního", "0ní", "0ním", "0ním", "0ní", "0ních", "0ním", "0ní", "0ní", "0ních", "0ními"],
  ["f", "-([bcčdhklmnprsštvzž])ní", "0ní", "0ní", "0ní", "0ní", "0ní", "0ní", "0ní", "0ních", "0ním", "0ní", "0ní", "0ních", "0ními"],
  ["s", "-([bcčdhklmnprsštvzž])ní", "0ního", "0nímu", "0ní/0ního", "0ní", "0ním", "0ním", "0ní", "0ních", "0ním", "0ní", "0ní", "0ních", "0ními"],
  ["m", "-([i])tel", "0tele", "0teli", "0tele", "0teli", "0teli", "0telem", "0telé", "0telů", "0telům", "0tele", "0telé", "0telích", "0teli"],
  ["m", "-([í])tel", "0tele", "0teli", "0tele", "0teli", "0teli", "0telem", "átelé", "átel", "átelům", "átele", "átelé", "átelích", "áteli"],
  ["m", "-([c])el", "0ela", "0elovi", "0ela", "0eli", "0elovi", "0elem", "celové", "celů", "celům", "cely", "celové", "celích", "cely"],
  ["m", "-([i])el", "0ela", "0elovi", "0ela", "0eli", "0elovi", "0elem", "ielové", "ielů", "ielům", "iely", "ielové", "ielích", "iely"],
  ["m", "-([o])is", "0ise", "0isovi", "0ise", "0isi", "0isovi", "0isem", "isové", "isů", "isům", "isovy", "isové", "isích", "isi"],
  ["m", "-([o])děk", "0ďka", "0ďkovi", "0ďka", "0ďku", "0ďkovi", "0ďkem", "ďkové", "ďků", "ďkům", "ďky", "ďkové", "ďcích", "ďky"],
  ["s", "-é", "ého", "ému", "é", "é", "ém", "ým", "á", "ých", "ým", "á", "á", "ých", "ými"],
  ["f", "-á", "é", "é", "ou", "á", "é", "ou", "é", "ých", "ým", "é", "é", "ých", "ými"],
  ["-", "já", "mne", "mně", "mne/mě", "já", "mně", "mnou", "my", "nás", "nám", "nás", "my", "nás", "námi"],
  ["-", "ty", "tebe", "tobě", "tě/tebe", "ty", "tobě", "tebou", "vy", "vás", "vám", "vás", "vy", "vás", "vámi"],
  ["-", "my", "", "", "", "", "", "", "my", "nás", "nám", "nás", "my", "nás", "námi"],
  ["-", "vy", "", "", "", "", "", "", "vy", "vás", "vám", "vás", "vy", "vás", "vámi"],
  ["m", "on", "něho", "mu/jemu/němu", "ho/jej", "on", "něm", "ním", "oni", "nich", "nim", "je", "oni", "nich", "jimi/nimi"],
  ["m", "oni", "", "", "", "", "", "", "oni", "nich", "nim", "je", "oni", "nich", "jimi/nimi"],
  ["f", "ony", "", "", "", "", "", "", "ony", "nich", "nim", "je", "ony", "nich", "jimi/nimi"],
  ["s", "ono", "něho", "mu/jemu/němu", "ho/jej", "ono", "něm", "ním", "ona", "nich", "nim", "je", "ony", "nich", "jimi/nimi"],
  ["f", "ona", "ní", "ní", "ji", "ona", "ní", "ní", "ony", "nich", "nim", "je", "ony", "nich", "jimi/nimi"],
  ["m", "ten", "toho", "tomu", "toho", "ten", "tom", "tím", "ti", "těch", "těm", "ty", "ti", "těch", "těmi"],
  ["f", "ta", "té", "té", "tu", "ta", "té", "tou", "ty", "těch", "těm", "ty", "ty", "těch", "těmi"],
  ["s", "to", "toho", "tomu", "toho", "to", "tom", "tím", "ta", "těch", "těm", "ta", "ta", "těch", "těmi"],
  ["m", "můj", "mého", "mému", "mého", "můj", "mém", "mým", "mí", "mých", "mým", "mé", "mí", "mých", "mými"],
  ["f", "má", "mé", "mé", "mou", "má", "mé", "mou", "mé", "mých", "mým", "mé", "mé", "mých", "mými"],
  ["f", "moje", "mé", "mé", "mou", "má", "mé", "mou", "moje", "mých", "mým", "mé", "mé", "mých", "mými"],
  ["s", "mé", "mého", "mému", "mé", "moje", "mém", "mým", "mé", "mých", "mým", "má", "má", "mých", "mými"],
  ["s", "moje", "mého", "mému", "moje", "moje", "mém", "mým", "moje", "mých", "mým", "má", "má", "mých", "mými"],
  ["m", "tvůj", "tvého", "tvému", "tvého", "tvůj", "tvém", "tvým", "tví", "tvých", "tvým", "tvé", "tví", "tvých", "tvými"],
  ["f", "tvá", "tvé", "tvé", "tvou", "tvá", "tvé", "tvou", "tvé", "tvých", "tvým", "tvé", "tvé", "tvých", "tvými"],
  ["f", "tvoje", "tvé", "tvé", "tvou", "tvá", "tvé", "tvou", "tvé", "tvých", "tvým", "tvé", "tvé", "tvých", "tvými"],
  ["s", "tvé", "tvého", "tvému", "tvého", "tvůj", "tvém", "tvým", "tvá", "tvých", "tvým", "tvé", "tvá", "tvých", "tvými"],
  ["s", "tvoje", "tvého", "tvému", "tvého", "tvůj", "tvém", "tvým", "tvá", "tvých", "tvým", "tvé", "tvá", "tvých", "tvými"],
  ["m", "náš", "našeho", "našemu", "našeho", "náš", "našem", "našim", "naši", "našich", "našim", "naše", "naši", "našich", "našimi"],
  ["f", "naše", "naší", "naší", "naši", "naše", "naší", "naší", "naše", "našich", "našim", "naše", "naše", "našich", "našimi"],
  ["s", "naše", "našeho", "našemu", "našeho", "naše", "našem", "našim", "naše", "našich", "našim", "naše", "naše", "našich", "našimi"],
  ["m", "váš", "vašeho", "vašemu", "vašeho", "váš", "vašem", "vašim", "vaši", "vašich", "vašim", "vaše", "vaši", "vašich", "vašimi"],
  ["f", "vaše", "vaší", "vaší", "vaši", "vaše", "vaší", "vaší", "vaše", "vašich", "vašim", "vaše", "vaše", "vašich", "vašimi"],
  ["s", "vaše", "vašeho", "vašemu", "vašeho", "vaše", "vašem", "vašim", "vaše", "vašich", "vašim", "vaše", "vaše", "vašich", "vašimi"],
  ["m", "jeho", "jeho", "jeho", "jeho", "jeho", "jeho", "jeho", "jeho", "jeho", "jeho", "jeho", "jeho", "jeho", "jeho"],
  ["f", "jeho", "jeho", "jeho", "jeho", "jeho", "jeho", "jeho", "jeho", "jeho", "jeho", "jeho", "jeho", "jeho", "jeho"],
  ["s", "jeho", "jeho", "jeho", "jeho", "jeho", "jeho", "jeho", "jeho", "jeho", "jeho", "jeho", "jeho", "jeho", "jeho"],
  ["m", "její", "jejího", "jejímu", "jejího", "její", "jejím", "jejím", "její", "jejích", "jejím", "její", "její", "jejích", "jejími"],
  ["s", "její", "jejího", "jejímu", "jejího", "její", "jejím", "jejím", "její", "jejích", "jejím", "její", "její", "jejích", "jejími"],
  ["f", "její", "její", "její", "její", "její", "její", "její", "její", "jejích", "jejím", "její", "její", "jejích", "jejími"],
  ["m", "jejich", "jejich", "jejich", "jejich", "jejich", "jejich", "jejich", "jejich", "jejich", "jejich", "jejich", "jejich", "jejich", "jejich"],
  ["s", "jejich", "jejich", "jejich", "jejich", "jejich", "jejich", "jejich", "jejich", "jejich", "jejich", "jejich", "jejich", "jejich", "jejich"],
  ["f", "jejich", "jejich", "jejich", "jejich", "jejich", "jejich", "jejich", "jejich", "jejich", "jejich", "jejich", "jejich", "jejich", "jejich"],
  ["m", "-bůh", "boha", "bohu", "boha", "bože", "bohovi", "bohem", "bozi/bohové", "bohů", "bohům", "bohy", "bozi/bohové", "bozích", "bohy"],
  ["m", "-pan", "pana", "panu", "pana", "pane", "panu", "panem", "páni/pánové", "pánů", "pánům", "pány", "páni/pánové", "pánech", "pány"],
  ["s", "moře", "moře", "moři", "moře", "moře", "moři", "mořem", "moře", "moří", "mořím", "moře", "moře", "mořích", "moři"],
  ["-", "dveře", "", "", "", "", "", "", "dveře", "dveří", "dveřím", "dveře", "dveře", "dveřích", "dveřmi"],
  ["-", "housle", "", "", "", "", "", "", "housle", "houslí", "houslím", "housle", "housle", "houslích", "houslemi"],
  ["-", "šle", "", "", "", "", "", "", "šle", "šlí", "šlím", "šle", "šle", "šlích", "šlemi"],
  ["-", "muka", "", "", "", "", "", "", "muka", "muk", "mukám", "muka", "muka", "mukách", "mukami"],
  ["s", "ovoce", "ovoce", "ovoci", "ovoce", "ovoce", "ovoci", "ovocem", "", "", "", "", "", "", ""],
  ["m", "humus", "humusu", "humusu", "humus", "humuse", "humusu", "humusem", "humusy", "humusů", "humusům", "humusy", "humusy", "humusech", "humusy"],
  ["m", "-vztek", "vzteku", "vzteku", "vztek", "vzteku", "vzteku", "vztekem", "vzteky", "vzteků", "vztekům", "vzteky", "vzteky", "vztecích", "vzteky"],
  ["m", "-dotek", "doteku", "doteku", "dotek", "doteku", "doteku", "dotekem", "doteky", "doteků", "dotekům", "doteky", "doteky", "dotecích", "doteky"],
  ["f", "-hra", "hry", "hře", "hru", "hro", "hře", "hrou", "hry", "her", "hrám", "hry", "hry", "hrách", "hrami"],
  ["m", "zeus", "dia", "diovi", "dia", "die", "diovi", "diem", "diové", "diů", "diům", "", "diové", "", ""],
  ["f", "nikol", "nikol", "nikol", "nikol", "nikol", "nikol", "nikol", "nikol", "nikol", "nikol", "nikol", "nikol", "nikol", "nikol"],
  ["-", "-tdva", "tidvou", "tidvoum", "tdva", "tdva", "tidvou", "tidvěmi", "", "", "", "", "", "", ""],
  ["-", "-tdvě", "tidvou", "tidvěma", "tdva", "tdva", "tidvou", "tidvěmi", "", "", "", "", "", "", ""],
  ["-", "-ttři", "titří", "titřem", "ttři", "ttři", "titřech", "titřemi", "", "", "", "", "", "", ""],
  ["-", "-tčtyři", "tičtyřech", "tičtyřem", "tčtyři", "tčtyři", "tičtyřech", "tičtyřmi", "", "", "", "", "", "", ""],
  ["-", "-tpět", "tipěti", "tipěti", "tpět", "tpět", "tipěti", "tipěti", "", "", "", "", "", "", ""],
  ["-", "-tšest", "tišesti", "tišesti", "tšest", "tšest", "tišesti", "tišesti", "", "", "", "", "", "", ""],
  ["-", "-tsedm", "tisedmi", "tisedmi", "tsedm", "tsedm", "tisedmi", "tisedmi", "", "", "", "", "", "", ""],
  ["-", "-tosm", "tiosmi", "tiosmi", "tosm", "tosm", "tiosmi", "tiosmi", "", "", "", "", "", "", ""],
  ["-", "-tdevět", "tidevíti", "tidevíti", "tdevět", "tdevět", "tidevíti", "tidevíti", "", "", "", "", "", "", ""],
  ["f", "-jedna", "jedné", "jedné", "jednu", "jedno", "jedné", "jednou", "", "", "", "", "", "", ""],
  ["m", "-jeden", "jednoho", "jednomu", "jednoho", "jeden", "jednom", "jedním", "", "", "", "", "", "", ""],
  ["s", "-jedno", "jednoho", "jednomu", "jednoho", "jedno", "jednom", "jedním", "", "", "", "", "", "", ""],
  ["-", "-dva", "dvou", "dvoum", "dva", "dva", "dvou", "dvěmi", "", "", "", "", "", "", ""],
  ["-", "-dvě", "dvou", "dvoum", "dva", "dva", "dvou", "dvěmi", "", "", "", "", "", "", ""],
  ["-", "-tři", "tří", "třem", "tři", "tři", "třech", "třemi", "", "", "", "", "", "", ""],
  ["-", "-čtyři", "čtyřech", "čtyřem", "čtyři", "čtyři", "čtyřech", "čtyřmi", "", "", "", "", "", "", ""],
  ["-", "-pět", "pěti", "pěti", "pět", "pět", "pěti", "pěti", "", "", "", "", "", "", ""],
  ["-", "-šest", "šesti", "šesti", "šest", "šest", "šesti", "šesti", "", "", "", "", "", "", ""],
  ["-", "-sedm", "sedmi", "sedmi", "sedm", "sedm", "sedmi", "sedmi", "", "", "", "", "", "", ""],
  ["-", "-osm", "osmi", "osmi", "osm", "osm", "osmi", "osmi", "", "", "", "", "", "", ""],
  ["-", "-devět", "devíti", "devíti", "devět", "devět", "devíti", "devíti", "", "", "", "", "", "", ""],
  ["-", "deset", "deseti", "deseti", "deset", "deset", "deseti", "deseti", "", "", "", "", "", "", ""],
  ["-", "-ná([cs])t", "ná0ti", "ná0ti", "ná0t", "náct", "ná0ti", "ná0ti", "", "", "", "", "", "", ""],
  ["-", "-dvacet", "dvaceti", "dvaceti", "dvacet", "dvacet", "dvaceti", "dvaceti", "", "", "", "", "", "", ""],
  ["-", "-třicet", "třiceti", "třiceti", "třicet", "třicet", "třiceti", "třiceti", "", "", "", "", "", "", ""],
  ["-", "-čtyřicet", "čtyřiceti", "čtyřiceti", "čtyřicet", "čtyřicet", "čtyřiceti", "čtyřiceti", "", "", "", "", "", "", ""],
  ["-", "-desát", "desáti", "desáti", "desát", "desát", "desáti", "desáti", "", "", "", "", "", "", ""],
  ["m", "-([i])sta", "0sty", "0stovi", "0stu", "0sto", "0stovi", "0stou", "0sté", "0stů", "0stům", "0sty", "0sté", "0stech", "0sty"],
  ["m", "-([o])sta", "0sty", "0stovi", "0stu", "0sto", "0stovi", "0stou", "0stové", "0stů", "0stům", "0sty", "0sté", "0stech", "0sty"],
  ["m", "-předseda", "předsedy", "předsedovi", "předsedu", "předsedo", "předsedovi", "předsedou", "předsedové", "předsedů", "předsedům", "předsedy", "předsedové", "předsedech", "předsedy"],
  ["m", "-srdce", "srdce", "srdi", "sdrce", "srdce", "srdci", "srdcem", "srdce", "srdcí", "srdcím", "srdce", "srdce", "srdcích", "srdcemi"],
  ["m", "-([db])ce", "0ce", "0ci", "0ce", "0če", "0ci", "0cem", "0ci/0cové", "0ců", "0cům", "0ce", "0ci/0cové", "0cích", "0ci"],
  ["m", "-([jň])ev", "0evu", "0evu", "0ev", "0eve", "0evu", "0evem", "0evy", "0evů", "0evům", "0evy", "0evy", "0evech", "0evy"],
  ["m", "-([lř])ev", "0evu/0va", "0evu/0vovi", "0ev/0va", "0eve/0ve", "0evu/0vovi", "0evem/0vem", "0evy/0vové", "0evů/0vů", "0evům/0vům", "0evy/0vy", "0evy/0vové", "0evech/0vech", "0evy/0vy"],
  ["m", "-ů([lz])", "o0u/o0a", "o0u/o0ovi", "ů0/o0a", "o0e", "o0u", "o0em", "o0y/o0ové", "o0ů", "o0ům", "o0y", "o0y/o0ové", "o0ech", "o0y"],
  ["m", "nůž", "nože", "noži", "nůž", "noži", "noži", "nožem", "nože", "nožů", "nožům", "nože", "nože", "nožích", "noži"],
  ["s", "-([bcčdghksštvzž])lo", "0la", "0lu", "0lo", "0lo", "0lu", "0lem", "0la", "0el", "0lům", "0la", "0la", "0lech", "0ly"],
  ["s", "-([bcčdnsštvzž])ko", "0ka", "0ku", "0ko", "0ko", "0ku", "0kem", "0ka", "0ek", "0kům", "0ka", "0ka", "0cích/0kách", "0ky"],
  ["s", "-([bcčdksštvzž])no", "0na", "0nu", "0no", "0no", "0nu", "0nem", "0na", "0en", "0nům", "0na", "0na", "0nech/0nách", "0ny"],
  ["s", "-o", "a", "u", "o", "o", "u", "em", "a", "", "ům", "a", "a", "ech", "y"],
  ["s", "-í", "í", "í", "í", "í", "í", "ím", "í", "í", "ím", "í", "í", "ích", "ími"],
  ["s", "-([čďť])([e])", "10te", "10ti", "10", "10", "10ti", "10tem", "1ata", "1at", "1atům", "1ata", "1ata", "1atech", "1aty"],
  ["f", "-([aeiouyáéíóúý])ka", "0ky", "0ce", "0ku", "0ko", "0ce", "0kou", "0ky", "0k", "0kám", "0ky", "0ky", "0kách", "0kami"],
  ["f", "-ka", "ky", "ce", "ku", "ko", "ce", "kou", "ky", "ek", "kám", "ky", "ky", "kách", "kami"],
  ["f", "-([bdghkmnptvz])ra", "0ry", "0ře", "0ru", "0ro", "0ře", "0rou", "0ry", "0er", "0rám", "0ry", "0ry", "0rách", "0rami"],
  ["f", "-ra", "ry", "ře", "ru", "ro", "ře", "rou", "ry", "r", "rám", "ry", "ry", "rách", "rami"],
  ["f", "-([tdbnvmp])a", "0y", "0ě", "0u", "0o", "0ě", "0ou", "0y", "0", "0ám", "0y", "0y", "0ách", "0ami"],
  ["f", "-cha", "chy", "še", "chu", "cho", "še", "chou", "chy", "ch", "chám", "chy", "chy", "chách", "chami"],
  ["f", "-([gh])a", "0y", "ze", "0u", "0o", "ze", "0ou", "0y", "0", "0ám", "0y", "0y", "0ách", "0ami"],
  ["f", "-ňa", "ni", "ně", "ňou", "ňo", "ni", "ňou", "ně/ničky", "ň", "ňám", "ně/ničky", "ně/ničky", "ňách", "ňami"],
  ["f", "-([šč])a", "0i", "0e", "0u", "0o", "0e", "0ou", "0e/0i", "0", "0ám", "0e/0i", "0e/0i", "0ách", "0ami"],
  ["f", "-a", "y", "e", "u", "o", "e", "ou", "y", "", "ám", "y", "y", "ách", "ami"],
  ["f", "-eň", "ně", "ni", "eň", "ni", "ni", "ní", "ně", "ní", "ním", "ně", "ně", "ních", "němi"],
  ["f", "-oň", "oně", "oni", "oň", "oni", "oni", "oní", "oně", "oní", "oním", "oně", "oně", "oních", "oněmi"],
  ["f", "-([ě])j", "0je", "0ji", "0j", "0ji", "0ji", "0jí", "0je", "0jí", "0jím", "0je", "0je", "0jích", "0jemi"],
  ["f", "-ev", "ve", "vi", "ev", "vi", "vi", "ví", "ve", "ví", "vím", "ve", "ve", "vích", "vemi"],
  ["f", "-ice", "ice", "ici", "ici", "ice", "ici", "icí", "ice", "ic", "icím", "ice", "ice", "icích", "icemi"],
  ["f", "-e", "e", "i", "i", "e", "i", "í", "e", "í", "ím", "e", "e", "ích", "emi"],
  ["f", "-([eaá])([jžň])", "10e/10i", "10i", "10", "10i", "10i", "10í", "10e/10i", "10í", "10ím", "10e", "10e", "10ích", "10emi"],
  ["f", "-([eayo])([š])", "10e/10i", "10i", "10", "10i", "10i", "10í", "10e/10i", "10í", "10ím", "10e", "10e", "10ích", "10emi"],
  ["f", "-([íy])ň", "0ně", "0ni", "0ň", "0ni", "0ni", "0ní", "0ně", "0ní", "0ním", "0ně", "0ně", "0ních", "0němi"],
  ["f", "-([íyý])ňe", "0ně", "0ni", "0ň", "0ni", "0ni", "0ní", "0ně", "0ní", "0ním", "0ně", "0ně", "0ních", "0němi"],
  ["f", "-([ťďž])", "0e", "0i", "0", "0i", "0i", "0í", "0e", "0í", "0ím", "0e", "0e", "0ích", "0emi"],
  ["f", "-toř", "toře", "toři", "toř", "toři", "toři", "toří", "toře", "toří", "tořím", "toře", "toře", "tořích", "tořemi"],
  ["f", "-ep", "epi", "epi", "ep", "epi", "epi", "epí", "epi", "epí", "epím", "epi", "epi", "epích", "epmi"],
  ["f", "-st", "sti", "sti", "st", "sti", "sti", "stí", "sti", "stí", "stem", "sti", "sti", "stech", "stmi"],
  ["f", "ves", "vsi", "vsi", "ves", "vsi", "vsi", "vsí", "vsi", "vsí", "vsem", "vsi", "vsi", "vsech", "vsemi"],
  ["m", "-([e])us", "0a", "0u/0ovi", "0a", "0e", "0u/0ovi", "0em", "0ové", "0ů", "0ům", "0y", "0ové", "0ích", "0y"],
  ["m", "-([i])us", "0a", "0u/0ovi", "0a", "0e", "0u/0ovi", "0em", "0ové", "0ů", "0ům", "0usy", "0ové", "0ích", "0usy"],
  ["m", "-([i])s", "0se", "0su/0sovi", "0se", "0se/0si", "0su/0sovi", "0sem", "0sy/0sové", "0sů", "0sům", "0sy", "0sy/0ové", "0ech", "0sy"],
  ["m", "výtrus", "výtrusu", "výtrusu", "výtrus", "výtruse", "výtrusu", "výtrusem", "výtrusy", "výtrusů", "výtrusům", "výtrusy", "výtrusy", "výtrusech", "výtrusy"],
  ["m", "trus", "trusu", "trusu", "trus", "truse", "trusu", "trusem", "trusy", "trusů", "trusům", "trusy", "trusy", "trusech", "trusy"],
  ["m", "-([aeioumpts])([lnmrktp])us", "10u/10a", "10u/10ovi", "10us/10a", "10e", "10u/10ovi", "10em", "10y/10ové", "10ů", "10ům", "10y", "10y/10ové", "10ech", "10y"],
  ["s", "-([l])um", "0a", "0u", "0um", "0um", "0u", "0em", "0a", "0", "0ům", "0a", "0a", "0ech", "0y"],
  ["s", "-([k])um", "0a", "0u", "0um", "0um", "0u", "0em", "0a", "0", "0ům", "0a", "0a", "0cích", "0y"],
  ["s", "-([i])um", "0a", "0u", "0um", "0um", "0u", "0em", "0a", "0í", "0ům", "0a", "0a", "0iích", "0y"],
  ["s", "-io", "0a", "0u", "0", "0", "0u", "0em", "0a", "0í", "0ům", "0a", "0a", "0iích", "0y"],
  ["m", "-([aeiouyáéíóúý])r", "0ru/0ra", "0ru/0rovi", "0r/0ra", "0re", "0ru/0rovi", "0rem", "0ry/0rové", "0rů", "0rům", "0ry", "0ry/0rové", "0rech", "0ry"],
  ["m", "-r", "ru/ra", "ru/rovi", "r/ra", "ře", "ru/rovi", "rem", "ry/rové", "rů", "rům", "ry", "ry/rové", "rech", "ry"],
  ["m", "-([mnp])en", "0enu/0ena", "0enu/0enovi", "0en/0na", "0ene", "0enu/0enovi", "0enem", "0eny/0enové", "0enů", "0enům", "0eny", "0eny/0enové", "0enech", "0eny"],
  ["m", "-([bcčdstvz])en", "0nu/0na", "0nu/0novi", "0en/0na", "0ne", "0nu/0novi", "0nem", "0ny/0nové", "0nů", "0nům", "0ny", "0ny/0nové", "0nech", "0ny"],
  ["m", "-([dglmnpbtvzs])", "0u/0a", "0u/0ovi", "0/0a", "0e", "0u/0ovi", "0em", "0y/0ové", "0ů", "0ům", "0y", "0y/0ové", "0ech", "0y"],
  ["m", "-([x])", "0u/0e", "0u/0ovi", "0/0e", "0i", "0u/0ovi", "0em", "0y/0ové", "0ů", "0ům", "0y", "0y/0ové", "0ech", "0y"],
  ["m", "sek", "seku/seka", "seku/sekovi", "sek/seka", "seku", "seku/sekovi", "sekem", "seky/sekové", "seků", "sekům", "seky", "seky/sekové", "secích", "seky"],
  ["m", "výsek", "výseku/výseka", "výseku/výsekovi", "výsek/výseka", "výseku", "výseku/výsekovi", "výsekem", "výseky/výsekové", "výseků", "výsekům", "výseky", "výseky/výsekové", "výsecích", "výseky"],
  ["m", "zásek", "záseku/záseka", "záseku/zásekovi", "zásek/záseka", "záseku", "záseku/zásekovi", "zásekem", "záseky/zásekové", "záseků", "zásekům", "záseky", "záseky/zásekové", "zásecích", "záseky"],
  ["m", "průsek", "průseku/průseka", "průseku/průsekovi", "průsek/průseka", "průseku", "průseku/průsekovi", "průsekem", "průseky/průsekové", "průseků", "výsekům", "průseky", "průseky/průsekové", "průsecích", "průseky"],
  ["m", "-([cčšždnňmpbrstvz])ek", "0ku/0ka", "0ku/0kovi", "0ek/0ka", "0ku", "0ku/0kovi", "0kem", "0ky/0kové", "0ků", "0kům", "0ky", "0ky/0kové", "0cích", "0ky"],
  ["m", "-([k])", "0u/0a", "0u/0ovi", "0/0a", "0u", "0u/0ovi", "0em", "0y/0ové", "0ů", "0ům", "0y", "0y/0ové", "cích", "0y"],
  ["m", "-ch", "chu/cha", "chu/chovi", "ch/cha", "chu/cha", "chu/chovi", "chem", "chy/chové", "chů", "chům", "chy", "chy/chové", "ších", "chy"],
  ["m", "-([h])", "0u/0a", "0u/0ovi", "0/0a", "0u", "0u/0ovi", "0em", "0y/0ové", "0ů", "0ům", "0y", "0y/0ové", "zích", "0y"],
  ["m", "-e([mnz])", "0u/0a", "0u/0ovi", "e0/e0a", "0e", "0u/0ovi", "0em", "0y/0ové", "0ů", "0ům", "0y", "0y/0ové", "0ech", "0y"],
  ["m", "-ec", "ce", "ci/covi", "ec/ce", "če", "ci/covi", "cem", "ce/cové", "ců", "cům", "ce", "ce/cové", "cích", "ci"],
  ["m", "-([cčďšňřťž])", "0e", "0i/0ovi", "0e", "0i", "0i/0ovi", "0em", "0e/0ové", "0ů", "0ům", "0e", "0e/0ové", "0ích", "0i"],
  ["m", "-oj", "oje", "oji/ojovi", "oj/oje", "oji", "oji/ojovi", "ojem", "oje/ojové", "ojů", "ojům", "oje", "oje/ojové", "ojích", "oji"],
  ["m", "-([gh])a", "0y", "0ovi", "0u", "0o", "0ovi", "0ou", "0ové", "0ů", "0ům", "0y", "0ové", "zích", "0y"],
  ["m", "-([k])a", "0y", "0ovi", "0u", "0o", "0ovi", "0ou", "0ové", "0ů", "0ům", "0y", "0ové", "cích", "0y"],
  ["m", "-a", "y", "ovi", "u", "o", "ovi", "ou", "ové", "ů", "ům", "y", "ové", "ech", "y"],
  ["f", "-l", "le", "li", "l", "li", "li", "lí", "le", "lí", "lím", "le", "le", "lích", "lemi"],
  ["f", "-í", "í", "í", "í", "í", "í", "í", "í", "ích", "ím", "í", "í", "ích", "ími"],
  ["f", "-([jř])", "0e", "0i", "0", "0i", "0i", "0í", "0e", "0í", "0ím", "0e", "0e", "0ích", "0emi"],
  ["f", "-([č])", "0i", "0i", "0", "0i", "0i", "0í", "0i", "0í", "0ím", "0i", "0i", "0ích", "0mi"],
  ["f", "-([š])", "0i", "0i", "0", "0i", "0i", "0í", "0i", "0í", "0ím", "0i", "0i", "0ích", "0emi"],
  ["s", "-([sljřň])e", "0ete", "0eti", "0e", "0e", "0eti", "0etem", "0ata", "0at", "0atům", "0ata", "0ata", "0atech", "0aty"],
  ["m", "-j", "je", "ji", "j", "ji", "ji", "jem", "je/jové", "jů", "jům", "je", "je/jové", "jích", "ji"],
  ["m", "-f", "fa", "fu/fovi", "f/fa", "fe", "fu/fovi", "fem", "fy/fové", "fů", "fům", "fy", "fy/fové", "fech", "fy"],
  ["m", "-í", "ího", "ímu", "ího", "í", "ímu", "ím", "í", "ích", "ím", "í", "í", "ích", "ími"],
  ["m", "-go", "a", "govi", "ga", "ga", "govi", "gem", "gové", "gů", "gům", "gy", "gové", "zích", "gy"],
  ["m", "-o", "a", "ovi", "a", "o", "ovi", "em", "ové", "ů", "ům", "y", "ové", "ech", "y"],
  ["", "-([tp])y", "", "", "", "", "", "", "0y", "0", "0ům", "0y", "0y", "0ech", "0ami"],
  ["", "-([k])y", "", "", "", "", "", "", "0y", "e0", "0ám", "0y", "0y", "0ách", "0ami"],
  ["f", "-ar", "ary", "aře", "ar", "ar", "ar", "ar", "ary", "ar", "arám", "ary", "ary", "arách", "arami"],
  ["f", "-am", "am", "am", "am", "am", "am", "am", "am", "am", "am", "am", "am", "am", "am"],
  ["f", "-er", "er", "er", "er", "er", "er", "er", "ery", "er", "erám", "ery", "ery", "erách", "erami"],
  ["m", "-oe", "oema", "oemovi", "oema", "oeme", "emovi", "emem", "oemové", "oemů", "oemům", "oemy", "oemové", "oemech", "oemy"],
  ["f", "-a", "y", "ě", "u", "o", "ě", "ou", "y", "", "ám", "y", "y", "ách", "ami"]
]

/-- The exception table `this.exceptions`: `[word, stem, form4]`. -/
def exceptions : List (List String) := [
  ["bořek", "bořk", "bořka"],
  ["bořek", "bořk", "bořka"],
  ["chleba", "chleb", "chleba"],
  ["chléb", "chleb", "chleba"],
  ["cyklus", "cykl", "cyklus"],
  ["dvůr", "dvor", "dvůr"],
  ["déšť", "dešť", "déšť"],
  ["důl", "dol", "důl"],
  ["havel", "havl", "havla"],
  ["hnůj", "hnoj", "hnůj"],
  ["hůl", "hole", "hůl"],
  ["karel", "karl", "karla"],
  ["kel", "kl", "kel"],
  ["kotel", "kotl", "kotel"],
  ["kůň", "koň", "koně"],
  ["luděk", "luďk", "luďka"],
  ["líh", "lih", "líh"],
  ["mráz", "mraz", "mráz"],
  ["myš", "myše", "myš"],
  ["nehet", "neht", "nehet"],
  ["ocet", "oct", "octa"],
  ["osel", "osl", "osla"],
  ["pavel", "pavl", "pavla"],
  ["pes", "ps", "psa"],
  ["peň", "pň", "peň"],
  ["posel", "posl", "posla"],
  ["prsten", "prstýnek", "prstýnku"],
  ["pytel", "pytl", "pytel"],
  ["půl", "půle", "půli"],
  ["skrýš", "skrýše", "skrýš"],
  ["smrt", "smrť", "smrt"],
  ["sníh", "sněh", "sníh"],
  ["sopel", "sopl", "sopel"],
  ["stupeň", "stupň", "stupeň"],
  ["stůl", "stol", "stůl"],
  ["svatozář", "svatozáře", "svatozář"],
  ["sůl", "sole", "sůl"],
  ["tůň", "tůňe", "tůň"],
  ["veš", "vš", "veš"],
  ["vítr", "větr", "vítr"],
  ["vůl", "vol", "vola"],
  ["zeď", "zď", "zeď"],
  ["zář", "záře", "zář"],
  ["účet", "účt", "účet"]
]

/-- The gender-forcing lexicon `this.forceM`. -/
def forceM : List String := [
  "alexej",
  "aleš",
  "alois",
  "ambrož",
  "ametyst",
  "andrej",
  "arest",
  "azbest",
  "bartoloměj",
  "bruno",
  "chlast",
  "chřest",
  "čaj",
  "čaroďej",
  "darmoďej",
  "dešť",
  "displej",
  "dobroďej",
  "drákula",
  "ďeda",
  "ďej",
  "host",
  "hranostaj",
  "hugo",
  "háj",
  "ilja",
  "ivo",
  "jirka",
  "jiří",
  "kolega",
  "koloďej",
  "komoří",
  "kontest",
  "koň",
  "kvido",
  "kříž",
  "lanýž",
  "lukáš",
  "maťej",
  "mikoláš",
  "mikuláš",
  "mluvka",
  "most",
  "motorest",
  "moula",
  "muž",
  "noe",
  "ondřej",
  "oto",
  "otto",
  "papež",
  "pepa",
  "peň",
  "plast",
  "podkoní",
  "polda",
  "prodej",
  "protest",
  "rest",
  "saša",
  "sleď",
  "slouha",
  "sluha",
  "sprej",
  "strejda",
  "stupeň",
  "sťežeň",
  "šmoula",
  "termoplast",
  "test",
  "tobiáš",
  "tomáš",
  "trest",
  "táta",
  "velmož",
  "výdej",
  "výprodej",
  "vězeň",
  "zeť",
  "zloďej",
  "žokej"
]

/-- The gender-forcing lexicon `this.forceF`. -/
def forceF : List String := [
  "dagmar",
  "dešť",
  "digestoř",
  "ester",
  "kancelář",
  "kleč",
  "konzervatoř",
  "koudel",
  "koupel",
  "křeč",
  "maštal",
  "miriam",
  "neteř",
  "obec",
  "ocel",
  "oratoř",
  "otep",
  "postel",
  "prdel",
  "rozkoš",
  "řeč",
  "sbeř",
  "trofej",
  "ves",
  "výstroj",
  "výzbroj",
  "vš",
  "zbroj",
  "zteč",
  "zvěř",
  "závěj"
]

/-- The gender-forcing lexicon `this.forceS`. -/
def forceS : List String := [
  "house",
  "kuře",
  "kůzle",
  "nemluvňe",
  "osle",
  "prase",
  "sele",
  "slůně",
  "tele",
  "vejce",
  "zvíře"
]

/-- A per-word result object.  JavaScript objects with numeric keys are
modelled as lists of optional strings indexed from 0; a missing key
(`undefined`) is `none`. -/
abbrev Rec := List (Option Str)

/-- `obj[j]`: object key access, `undefined` when absent. -/
def recGet (r : Rec) (j : Nat) : Option Str := r.getD j none

/-- `{...Array(14).fill(word)}`: spreading the filled array produces an
object with keys 0 through 13, each holding the (accent-broken) word. -/
def passRec (word : Str) : Rec := List.replicate 14 (some word)

/-- The gender lexicon lookup performed when `gender === null`:
`forceM`/`forceF`/`forceS` membership of the lowercased word, in order. -/
def forceLookup (g : Option String) (wordLower : Str) : Option String :=
  match g with
  | some s => some s
  | none =>
    if forceM.any (fun w => w.toList == wordLower) then some "m"
    else if forceF.any (fun w => w.toList == wordLower) then some "f"
    else if forceS.any (fun w => w.toList == wordLower) then some "s"
    else none

/-- `this.exceptions.find(e => e[0] === this.breakAccents(wordLower))`. -/
def findExc (wordLower : Str) : Option (List String) :=
  exceptions.find? (fun e => (e.getD 0 "").toList == breakAccents wordLower)

/-- `let baseWord = exception ? exception[1] : word`. -/
def baseWordOf (word : Str) (exc : Option (List String)) : Str :=
  match exc with
  | some e => (e.getD 1 "").toList
  | none => word

/-- `this.match(pattern[1], baseWord)`: literal specifications compare
case-insensitively; `-`-specifications run the compiled end-anchored
search and store the captures in the shared scratch state.  Returns the
split point (`-1` is `none`) and the updated state. -/
def matchPat (spec : String) (word : Str) (st : St) : Option Nat × St :=
  match spec.toList with
  | '-' :: r =>
    match parseItems r with
    | none => (none, st)
    | some items =>
      match searchAt items word with
      | none => (none, st)
      | some (k, caps) => (some k, assignRepl caps st)
  | _ => (if lowerStr spec.toList == lowerStr word then some 0 else none, st)

/-- `if (gender && pattern[0] !== gender) continue`: a row is skipped when
the established gender is truthy (non-null, nonempty) and differs from the
row's gender. -/
def skipCond (g : Option String) (q : List String) : Bool :=
  match g with
  | some s => !(s == "") && !(q.getD 0 "" == s)
  | none => false

/-- The pattern loop: skip a row on `skipCond`, otherwise attempt the
match; the first success wins. -/
def scanPatterns (g : Option String) (bw : Str) (st : St) :
    List (List String) → Option (List String × Nat) × St
  | [] => (none, st)
  | p :: ps =>
    if skipCond g p then
      scanPatterns g bw st ps
    else
      match matchPat (p.getD 1 "") bw st with
      | (some k, st') => (some (p, k), st')
      | (none, st') => scanPatterns g bw st' ps

/-- The body of the form loop for one case index: the exception overrides
form 4 (`this.capitalize(exception[2])`, skipping the `isUpper` step);
otherwise back-references are substituted into the template, the
animate/inanimate alternative is selected, the prefix is prepended,
accents are fixed and capitalization reapplied. -/
def renderSlot (p : List String) (exc : Option (List String)) (pref : Str)
    (st : St) (animate isUp : Bool) (j : Nat) : Str :=
  match exc with
  | some e =>
    if j = 4 then capitalize (e.getD 2 "").toList
    else
      let t := selectAnim animate (applyRepl st (p.getD j "").toList)
      let res := fixAccents (pref ++ t)
      if isUp then capitalize res else res
  | none =>
    let t := selectAnim animate (applyRepl st (p.getD j "").toList)
    let res := fixAccents (pref ++ t)
    if isUp then capitalize res else res

/-- The successful-match record `inflectedWord`: key 1 holds the original
word, keys 2 through 14 the rendered forms, key 0 is never written. -/
def mkRec (worig : Str) (p : List String) (exc : Option (List String))
    (pref : Str) (st : St) (animate isUp : Bool) : Rec :=
  none :: some worig ::
    (List.range' 2 13).map (fun j => some (renderSlot p exc pref st animate isUp j))

/-- Processing of a single word of the loop body: `none` models the
`TypeError` thrown by `word[0].toUpperCase()` on an empty word.  On a
match the record is pushed and the gender updated to the row's gender;
`if (!inflectedWord[2])` additionally pushes the passthrough object when
form 2 rendered falsy (empty), and is the only push when nothing matched. -/
def processWord (animate : Bool) (g : Option String) (st : St) (worig : Str) :
    Option (List Rec × Option String × St) :=
  match worig with
  | [] => none
  | c :: _ =>
    let isUp := czUpper c == c
    let word := breakAccents worig
    let wordLower := lowerStr word
    let g1 := forceLookup g wordLower
    let exc := findExc wordLower
    let base := baseWordOf word exc
    match scanPatterns g1 base st patterns with
    | (some (p, k), st') =>
      let pref := base.take k
      let recd := mkRec worig p exc pref st' animate isUp
      let recs :=
        if renderSlot p exc pref st' animate isUp 2 = [] then [recd, passRec word]
        else [recd]
      some (recs, some (p.getD 0 ""), st')
    | (none, _) => some ([passRec word], g1, st)

/-- The word loop, threading gender and scratch state and collecting the
pushed records in processing order. -/
def processWords (animate : Bool) : List Str → Option String → St →
    Option (List Rec × St)
  | [], _, st => some ([], st)
  | w :: ws, g, st =>
    match processWord animate g st w with
    | none => none
    | some (recs, g', st') =>
      match processWords animate ws g' st' with
      | none => none
      | some (rest, st'') => some (recs ++ rest, st'')

/-- `text.split(' ')`: split on every single space; the empty string
splits to `[""]`. -/
def splitOnSpace : Str → List Str
  | [] => [[]]
  | c :: r =>
    if c = ' ' then [] :: splitOnSpace r
    else
      match splitOnSpace r with
      | [] => [[c]]
      | w :: ws => (c :: w) :: ws

/-- `partials.join(' ')`; `undefined` entries have already been turned
into empty strings by the caller. -/
def joinSpace : List Str → Str
  | [] => []
  | [w] => w
  | w :: ws => w ++ ' ' :: joinSpace ws

/-- `inflect(text, animate)`: split into words, process them in reverse
order, then reverse the records back and join each of the 14 case slots
with spaces.  The returned list holds `result[1]` through `result[14]`;
`none` models a thrown `TypeError`. -/
def inflect (text : String) (animate : Bool) (st : St) :
    Option (List Str × St) :=
  match processWords animate (splitOnSpace text.toList).reverse none st with
  | none => none
  | some (inflected, st') =>
    let reversed := inflected.reverse
    some ((List.range' 1 14).map
      (fun j => joinSpace (reversed.map (fun r => (recGet r j).getD []))), st')

/-- The 14 result strings of `inflect` on a freshly constructed
`Inflection` instance (`this.replacements = []`). -/
def inflectSlots (text : String) (animate : Bool) : Option (List Str) :=
  (inflect text animate St.init).map (fun r => r.1)

/-- `result[j]` of the returned sequence, for `1 ≤ j ≤ 14`. -/
def slotOf (res : List Str) (j : Nat) : Str := res.getD (j - 1) []

/-- One of the six intermediate palatalized marker pairs `ďi ťi ňi ďe ťe ňe`
produced by `breakAccents`. -/
def isMarker (a b : Char) : Bool :=
  (a == 'ď' || a == 'ť' || a == 'ň') && (b == 'i' || b == 'e')

/-- No marker pair occurs anywhere in the string. -/
def markerFree : Str → Bool
  | a :: b :: r => !isMarker a b && markerFree (b :: r)
  | _ => true

/-- Some target digraph `di ti ni dě tě ně` of `breakAccents` occurs. -/
def hasTargetDigraph : Str → Bool
  | a :: b :: r =>
    ((a == 'd' || a == 't' || a == 'n') && (b == 'i' || b == 'ě')) ||
      hasTargetDigraph (b :: r)
  | _ => false

/-- The state-free core of `matchPat`: the split point and the captured
characters.  `matchPat` equals this paired with the corresponding state
update (`matchPat_eq` below). -/
def matchCaps (spec : String) (word : Str) : Option (Nat × List Char) :=
  match spec.toList with
  | '-' :: r =>
    match parseItems r with
    | none => none
    | some items => searchAt items word
  | _ => if lowerStr spec.toList == lowerStr word then some (0, []) else none

def groupCount (items : List Item) : Nat :=
  (items.filter fun it => match it with | Item.group _ => true | Item.lit _ => false).length

/-- Number of capture groups of a row's specification. -/
def specGroupCount (spec : String) : Nat :=
  match spec.toList with
  | '-' :: r =>
    match parseItems r with
    | none => 0
    | some items => groupCount items
  | _ => 0

/-- The observable part of a word-processing step: the pushed records and
the gender, without the scratch state. -/
def stripSt (x : List Rec × Option String × St) : List Rec × Option String :=
  (x.1, x.2.1)

/-- All class characters of a specification stay away from the digit keys
of the back-reference array under case folding. -/
def specClassesOK (spec : String) : Bool :=
  match spec.toList with
  | '-' :: r =>
    match parseItems r with
    | none => true
    | some items =>
      items.all fun it =>
        match it with
        | Item.group cls => cls.all fun x => !(czLower x == '0') && !(czLower x == '1')
        | Item.lit _ => true
  | _ => true

/-! ## Basic lemmas about the string helpers -/

theorem replaceFirstChar_not_mem (k v : Char) (l : Str) (h : k ∉ l) :
    replaceFirstChar k v l = l := by
  induction l with
  | nil => rfl
  | cons c r ih =>
    have hck : c ≠ k := fun hc => h (hc ▸ List.mem_cons_self c r)
    have hr : k ∉ r := fun hm => h (List.mem_cons_of_mem c hm)
    simp [replaceFirstChar, hck, ih hr]

theorem mem_replaceFirstChar (k v x : Char) (l : Str)
    (h : x ∈ replaceFirstChar k v l) : x ∈ l ∨ x = v := by
  induction l with
  | nil => simp [replaceFirstChar] at h
  | cons c r ih =>
    by_cases hck : c = k
    · simp [replaceFirstChar, hck] at h
      rcases h with h | h
      · exact Or.inr h
      · exact Or.inl (List.mem_cons_of_mem _ h)
    · simp [replaceFirstChar, hck] at h
      rcases h with h | h
      · exact Or.inl (h ▸ List.mem_cons_self _ _)
      · rcases ih h with h' | h'
        · exact Or.inl (List.mem_cons_of_mem _ h')
        · exact Or.inr h'

theorem replaceFirstChar_append_left (k v : Char) (a s : Str) (h : k ∈ a) :
    replaceFirstChar k v (a ++ s) = replaceFirstChar k v a ++ s := by
  induction a with
  | nil => simp at h
  | cons c r ih =>
    by_cases hck : c = k
    · simp [replaceFirstChar, hck]
    · have hr : k ∈ r := by
        rcases List.mem_cons.mp h with h' | h'
        · exact absurd h'.symm hck
        · exact h'
      simp [replaceFirstChar, hck, ih hr]

theorem splitFirst_append (k : Char) (a b : Str) (h : k ∉ a) :
    splitFirst k (a ++ k :: b) = some (a, b) := by
  induction a with
  | nil => simp [splitFirst]
  | cons c r ih =>
    have hck : c ≠ k := fun hc => h (hc ▸ List.mem_cons_self c r)
    have hr : k ∉ r := fun hm => h (List.mem_cons_of_mem c hm)
    simp [splitFirst, hck, ih hr]

theorem applyRepl_no_digits (st : St) (t : Str) (h0 : '0' ∉ t) (h1 : '1' ∉ t) :
    applyRepl st t = t := by
  obtain ⟨r0, r1⟩ := st
  cases r0 <;> cases r1 <;>
    simp [applyRepl, replaceFirstChar_not_mem _ _ _ h0, replaceFirstChar_not_mem _ _ _ h1]

/-! ## The state-free view of `matchPat` -/

theorem matchPat_eq (spec : String) (w : Str) (st : St) :
    matchPat spec w st =
      ((matchCaps spec w).map (fun p => p.1),
        match matchCaps spec w with
        | some (_, caps) => assignRepl caps st
        | none => st) := by
  unfold matchPat matchCaps
  split
  · split
    · rfl
    · split <;> simp_all
  · split
    · rfl
    · rfl

theorem matchPat_fail_st (spec : String) (w : Str) (st : St)
    (h : (matchPat spec w st).1 = none) : (matchPat spec w st).2 = st := by
  rw [matchPat_eq] at h ⊢
  cases hm : matchCaps spec w with
  | none => rfl
  | some p => rw [hm] at h; simp at h

/-! ## C1: which slot carries the instrumental case -/

/-- C1, counterexample: the claim places the instrumental in form slot 8,
but `inflect("Novák")` carries the nominative plural "Nováky" there, not
"Novákem". -/
theorem c1_counterexample :
    (inflectSlots "Novák" false).map (fun r => slotOf r 8) = some "Nováky".toList ∧
      some "Nováky".toList ≠ some "Novákem".toList := by
  exact ⟨by rfl, by decide⟩

/-- C1 (amended): the instrumental case lives in form slot 7 — the slot
`formatAttorneyText` reads: `inflect("Novák")` yields "Novákem" there and
`inflect("pes")` yields "psem", built from the exception stem "ps". -/
theorem c1_theorem :
    (inflectSlots "Novák" false).map (fun r => slotOf r 7) = some "Novákem".toList ∧
      (inflectSlots "pes" false).map (fun r => slotOf r 7) = some "psem".toList := by
  exact ⟨by rfl, by rfl⟩

/-! ## C8: animate/inanimate alternative selection -/

/-- C8, counterexample: for the pattern matching "lev"
(`"-([lř])ev"`, templates like `"0ev/0va"`), `animate = true` returns the
post-marker alternative with its back-reference still unsubstituted:
slot 2 is the literal "0va", not "lva". -/
theorem c8_counterexample :
    (inflectSlots "lev" true).map (fun r => slotOf r 2) = some "0va".toList ∧
      some "0va".toList ≠ some "lva".toList := by
  exact ⟨by rfl, by decide⟩

/-- C8 (amended): back-references are substituted into the whole template
before the alternative is selected, replacing only the first occurrence of
each capture index.  With `animate = false` the pre-marker alternative is
returned with the capture substituted; with `animate = true` the
post-marker alternative is returned unchanged, so a back-reference that
already occurs in the pre-marker alternative stays a literal digit. -/
theorem c8_theorem (v : Char) (r1 : Option Char) (a b : Str)
    (hv0 : v ≠ '0') (hv1 : v ≠ '1') (hvs : v ≠ '/')
    (ha : '/' ∉ a) (h0 : '0' ∈ a) (h1a : '1' ∉ a) (h1b : '1' ∉ b) :
    selectAnim false (applyRepl ⟨some v, r1⟩ (a ++ '/' :: b)) =
        replaceFirstChar '0' v a ∧
      selectAnim true (applyRepl ⟨some v, r1⟩ (a ++ '/' :: b)) = b := by
  have hrw : applyRepl ⟨some v, r1⟩ (a ++ '/' :: b) =
      replaceFirstChar '0' v a ++ '/' :: b := by
    have hstep : replaceFirstChar '0' v (a ++ '/' :: b) =
        replaceFirstChar '0' v a ++ '/' :: b :=
      replaceFirstChar_append_left '0' v a ('/' :: b) h0
    have hone : '1' ∉ replaceFirstChar '0' v a ++ '/' :: b := by
      intro hm
      rcases List.mem_append.mp hm with hm | hm
      · rcases mem_replaceFirstChar _ _ _ _ hm with hm' | hm'
        · exact h1a hm'
        · exact hv1 hm'.symm
      · rcases List.mem_cons.mp hm with hm' | hm'
        · exact absurd hm' (by decide)
        · exact h1b hm'
    cases r1 with
    | none => simpa [applyRepl] using hstep
    | some u => simp [applyRepl, hstep, replaceFirstChar_not_mem _ _ _ hone]
  have hslash : '/' ∉ replaceFirstChar '0' v a := by
    intro hm
    rcases mem_replaceFirstChar _ _ _ _ hm with hm' | hm'
    · exact ha hm'
    · exact hvs hm'.symm
  rw [hrw]
  constructor
  · simp [selectAnim, splitFirst_append '/' _ _ hslash]
  · simp [selectAnim, splitFirst_append '/' _ _ hslash]

/-- C8, witness: the concrete slot-2 template of the "lev" pattern. -/
theorem c8_witness :
    selectAnim false (applyRepl ⟨some 'l', none⟩ ("0evu".toList ++ '/' :: "0va".toList)) =
        replaceFirstChar '0' 'l' "0evu".toList ∧
      selectAnim true (applyRepl ⟨some 'l', none⟩ ("0evu".toList ++ '/' :: "0va".toList)) =
        "0va".toList :=
  c8_theorem 'l' none "0evu".toList "0va".toList (by decide) (by decide) (by decide)
    (by decide) (by decide) (by decide) (by decide)

/-! ## C2: totality on inputs whose words are all nonempty -/

theorem processWord_total (animate : Bool) (g : Option String) (st : St)
    (c : Char) (cr : Str) : (processWord animate g st (c :: cr)).isSome = true := by
  unfold processWord
  dsimp only
  split <;> rfl

theorem processWords_total (animate : Bool) (ws : List Str) :
    ∀ (g : Option String) (st : St), (∀ w ∈ ws, w ≠ []) →
      (processWords animate ws g st).isSome = true := by
  induction ws with
  | nil => intro g st _; rfl
  | cons w ws ih =>
    intro g st h
    obtain ⟨c, cr, rfl⟩ := List.exists_cons_of_ne_nil (h w (List.mem_cons_self w ws))
    have h1 := processWord_total animate g st c cr
    obtain ⟨⟨recs, g', st'⟩, heq⟩ := Option.isSome_iff_exists.mp h1
    have h2 := ih g' st' (fun w hw => h w (List.mem_cons_of_mem _ hw))
    obtain ⟨⟨rest, st''⟩, heq2⟩ := Option.isSome_iff_exists.mp h2
    unfold processWords
    rw [heq]
    dsimp only
    rw [heq2]
    rfl

/-- C2, counterexample: `inflect("")` does not return normally — splitting
the empty string yields the single empty word, and reading
`word[0].toUpperCase()` on it throws (modelled as `none`). -/
theorem c2_counterexample : inflect "" false St.init = none := by rfl

/-- C2 (amended): `inflect` returns normally for every input whose
space-separated words are all nonempty (in particular it never throws on
such input, whatever the animate flag and the scratch state); the empty
string — and any input with a leading, trailing or doubled space — throws
instead of degrading to passthrough. -/
theorem c2_theorem (text : String) (animate : Bool) (st : St)
    (h : ∀ w ∈ splitOnSpace text.toList, w ≠ []) :
    (inflect text animate st).isSome = true := by
  unfold inflect
  have h' : ∀ w ∈ (splitOnSpace text.toList).reverse, w ≠ [] := by
    intro w hw
    exact h w (List.mem_reverse.mp hw)
  have h1 := processWords_total animate ((splitOnSpace text.toList).reverse) none st h'
  obtain ⟨⟨recs, st'⟩, heq⟩ := Option.isSome_iff_exists.mp h1
  rw [heq]
  rfl

/-- C2, witness. -/
theorem c2_witness : (inflect "Jana Nováková" false St.init).isSome = true :=
  c2_theorem "Jana Nováková" false St.init (by decide)

/-! ## The shape of single-word results -/

theorem inflect_single (text : String) (animate : Bool) (st : St) (w : Str)
    (recd : Rec) (g' : Option String) (st' : St)
    (hs : splitOnSpace text.toList = [w])
    (hp : processWord animate none st w = some ([recd], g', st')) :
    inflect text animate st =
      some ((List.range' 1 14).map (fun j => (recGet recd j).getD []), st') := by
  unfold inflect
  rw [hs]
  simp only [List.reverse_cons, List.reverse_nil, List.nil_append]
  unfold processWords
  rw [hp]
  unfold processWords
  simp [joinSpace]

theorem recGet_mkRec (worig : Str) (p : List String) (exc : Option (List String))
    (pref : Str) (st : St) (animate isUp : Bool) (j : Nat)
    (h2 : 2 ≤ j) (h14 : j ≤ 14) :
    recGet (mkRec worig p exc pref st animate isUp) j =
      some (renderSlot p exc pref st animate isUp j) := by
  interval_cases j <;> rfl

theorem recGet_mkRec_one (worig : Str) (p : List String) (exc : Option (List String))
    (pref : Str) (st : St) (animate isUp : Bool) :
    recGet (mkRec worig p exc pref st animate isUp) 1 = some worig := rfl

theorem slotOf_map (f : Nat → Str) (j : Nat) (h1 : 1 ≤ j) (h14 : j ≤ 14) :
    slotOf ((List.range' 1 14).map f) j = f j := by
  interval_cases j <;> rfl

theorem toList_mk (l : List Char) : (String.mk l).toList = l := rfl

/-- A single pushed record whose key 14 is present must come from a
pattern match (the passthrough object only has keys 0 through 13), and
then it is exactly the rendered `mkRec` record. -/
theorem processWord_single_inv (animate : Bool) (g : Option String) (st : St)
    (w : Str) (recd : Rec) (g' : Option String) (st' : St)
    (hp : processWord animate g st w = some ([recd], g', st'))
    (h14 : recGet recd 14 ≠ none) :
    ∃ c cr p k, w = c :: cr ∧
      recd = mkRec w p (findExc (lowerStr (breakAccents w)))
        ((baseWordOf (breakAccents w) (findExc (lowerStr (breakAccents w)))).take k)
        st' animate (czUpper c == c) ∧
      scanPatterns (forceLookup g (lowerStr (breakAccents w)))
        (baseWordOf (breakAccents w) (findExc (lowerStr (breakAccents w)))) st patterns
        = (some (p, k), st') := by
  cases w with
  | nil => simp [processWord] at hp
  | cons c cr =>
    unfold processWord at hp
    dsimp only at hp
    split at hp
    · rename_i p k st2 heq
      split at hp
      · simp at hp
      · simp only [Option.some.injEq, Prod.mk.injEq, List.cons.injEq, and_true] at hp
        obtain ⟨hrec, hg, hst⟩ := hp
        subst hst
        exact ⟨c, cr, p, k, rfl, hrec.symm, heq⟩
    · rename_i st2 heq
      simp only [Option.some.injEq, Prod.mk.injEq, List.cons.injEq, and_true] at hp
      obtain ⟨hrec, hg, hst⟩ := hp
      exact absurd (hrec ▸ rfl : recGet recd 14 = none) h14

/-! ## C3: what an unmatched word actually produces -/

theorem passRec_slots (bw : Str) :
    (List.range' 1 14).map (fun j => (recGet (passRec bw) j).getD []) =
      List.replicate 13 bw ++ [[]] := rfl

/-- C3, counterexample: the word "w" matches no pattern, yet its form
slot 14 is the empty string, not the word itself — the passthrough object
`{...Array(14).fill(word)}` only has keys 0 through 13, so key 14 is
`undefined` and joins to "". -/
theorem c3_counterexample :
    (inflectSlots "w" false).map (fun r => slotOf r 14) = some [] ∧
      some ([] : Str) ≠ some "w".toList := by
  exact ⟨by rfl, by decide⟩

/-- C3 (amended): for a nonempty single word that matches no pattern,
form slots 1 through 13 all equal the accent-broken word (which is the
unmodified original only when the word contains no `di/ti/ni/dě/tě/ně`
digraph) and form slot 14 is the empty string. -/
theorem c3_theorem (w : Str) (c : Char) (cr : Str) (animate : Bool)
    (hw : w = c :: cr)
    (hsplit : splitOnSpace w = [w])
    (hscan : (scanPatterns (forceLookup none (lowerStr (breakAccents w)))
        (baseWordOf (breakAccents w) (findExc (lowerStr (breakAccents w))))
        St.init patterns).1 = none) :
    inflectSlots (String.mk w) animate =
      some (List.replicate 13 (breakAccents w) ++ [[]]) := by
  subst hw
  cases hsc : scanPatterns (forceLookup none (lowerStr (breakAccents (c :: cr))))
      (baseWordOf (breakAccents (c :: cr)) (findExc (lowerStr (breakAccents (c :: cr)))))
      St.init patterns with
  | mk o st2 =>
    rw [hsc] at hscan
    dsimp only at hscan
    subst hscan
    have hp : processWord animate none St.init (c :: cr) =
        some ([passRec (breakAccents (c :: cr))],
          forceLookup none (lowerStr (breakAccents (c :: cr))), St.init) := by
      unfold processWord
      dsimp only
      rw [hsc]
    have hres := inflect_single (String.mk (c :: cr)) animate St.init (c :: cr)
      (passRec (breakAccents (c :: cr))) _ _ hsplit hp
    unfold inflectSlots
    rw [hres]
    rw [Option.map_some']
    rw [passRec_slots]

/-- C3, witness. -/
theorem c3_witness :
    inflectSlots (String.mk "w".toList) false =
      some (List.replicate 13 (breakAccents "w".toList) ++ [[]]) :=
  c3_theorem "w".toList 'w' [] false (by rfl) (by rfl) (by rfl)

/-! ## C4: form slot 1 versus the original word -/

/-- C4, counterexample: `inflect("my")` yields "my my" in form slot 1 —
the matched record's empty second form triggers the extra passthrough
push, so the single word contributes two joined components. -/
theorem c4_counterexample :
    (inflectSlots "my" false).map (fun r => slotOf r 1) = some "my my".toList ∧
      some "my my".toList ≠ some "my".toList := by
  exact ⟨by rfl, by decide⟩

/-- C4 (amended): form slot 1 equals the original input, case-sensitively,
for every single-word input that is declined by a pattern match pushing a
single record; for an unmatched word slot 1 is the accent-broken word, and
a matched word whose rendered second form is empty contributes twice. -/
theorem c4_theorem (w : Str) (animate : Bool) (recd : Rec)
    (g' : Option String) (st' : St)
    (hsplit : splitOnSpace w = [w])
    (hp : processWord animate none St.init w = some ([recd], g', st'))
    (h14 : recGet recd 14 ≠ none) :
    (inflectSlots (String.mk w) animate).map (fun r => slotOf r 1) = some w := by
  obtain ⟨c, cr, p, k, hw, hrec, hscan⟩ :=
    processWord_single_inv animate none St.init w recd g' st' hp h14
  have hres := inflect_single (String.mk w) animate St.init w recd g' st' hsplit hp
  unfold inflectSlots
  rw [hres]
  simp only [Option.map_some']
  rw [slotOf_map (fun j => (recGet recd j).getD []) 1 (by decide) (by decide)]
  rw [hrec]
  subst hw
  rfl

/-- C4, witness: the matched word "Novák". -/
theorem c4_witness :
    (inflectSlots (String.mk "Novák".toList) false).map (fun r => slotOf r 1) =
      some "Novák".toList :=
  c4_theorem "Novák".toList false
    (mkRec "Novák".toList
      ["m", "-([k])", "0u/0a", "0u/0ovi", "0/0a", "0u", "0u/0ovi", "0em",
        "0y/0ové", "0ů", "0ům", "0y", "0y/0ové", "cích", "0y"]
      none "Nová".toList ⟨some 'k', none⟩ false true)
    (some "m") ⟨some 'k', none⟩ (by rfl) (by rfl) (by decide)

/-! ## C6: an established gender constrains pattern selection -/

theorem scanPatterns_gender_mem (g : String) (bw : Str) (ps : List (List String)) :
    ∀ (st : St) (p : List String) (k : Nat) (st2 : St),
      g ≠ "" →
      scanPatterns (some g) bw st ps = (some (p, k), st2) →
      p.getD 0 "" = g := by
  induction ps with
  | nil => intro st p k st2 hg h; simp [scanPatterns] at h
  | cons q qs ih =>
    intro st p k st2 hg h
    unfold scanPatterns at h
    split at h
    · exact ih _ _ _ _ hg h
    · rename_i hcond
      split at h
      · rename_i k' st' heq
        simp only [Prod.mk.injEq, Option.some.injEq] at h
        obtain ⟨⟨hq, -⟩, -⟩ := h
        subst hq
        simp only [skipCond, Bool.and_eq_true, Bool.not_eq_true',
          beq_eq_false_iff_ne, ne_eq, not_and, Bool.not_eq_true] at hcond
        have := hcond (by simpa using hg)
        simpa using this
      · exact ih _ _ _ _ hg h

/-- C6: once a truthy gender `g` is established, the pattern scan only
returns rows of gender `g` (every other row is skipped), and processing a
further word under gender `g` leaves the established gender unchanged —
so all remaining words of the name are declined under `g`. -/
theorem c6_theorem (g : String) (bw w : Str) (st sta stb st2 : St)
    (p : List String) (k : Nat) (animate : Bool) (recs : List Rec)
    (g' : Option String)
    (hg : g ≠ "")
    (hscan : scanPatterns (some g) bw st patterns = (some (p, k), st2))
    (hword : processWord animate (some g) sta w = some (recs, g', stb)) :
    p.getD 0 "" = g ∧ g' = some g := by
  refine ⟨scanPatterns_gender_mem g bw patterns st p k st2 hg hscan, ?_⟩
  cases w with
  | nil => simp [processWord] at hword
  | cons c cr =>
    unfold processWord at hword
    dsimp only at hword
    split at hword
    · rename_i q k' st3 heq
      split at hword <;>
      · simp only [Option.some.injEq, Prod.mk.injEq] at hword
        obtain ⟨-, hgq, -⟩ := hword
        have := scanPatterns_gender_mem g _ patterns _ _ _ _ hg heq
        rw [← hgq, this]
    · rename_i st3 heq
      simp only [Option.some.injEq, Prod.mk.injEq] at hword
      obtain ⟨-, hgq, -⟩ := hword
      rw [← hgq]
      rfl

/-- C6, witness: the feminine gender established by "Nováková" makes the
scan of "jana" pick the feminine row `-([tdbnvmp])a`, and an unmatched
word processed under "f" keeps gender "f". -/
theorem c6_witness :
    (["f", "-([tdbnvmp])a", "0y", "0ě", "0u", "0o", "0ě", "0ou", "0y", "0",
        "0ám", "0y", "0y", "0ách", "0ami"] : List String).getD 0 "" = "f" ∧
      (some "f" : Option String) = some "f" :=
  c6_theorem "f" "jana".toList "w".toList St.init St.init St.init
    ⟨some 'n', none⟩
    ["f", "-([tdbnvmp])a", "0y", "0ě", "0u", "0o", "0ě", "0ou", "0y", "0",
      "0ám", "0y", "0y", "0ách", "0ami"]
    2 false [passRec "w".toList] (some "f")
    (by decide) (by rfl) (by rfl)

/-! ## C7: exceptions rewrite the stem before pattern matching -/

theorem exception_slots (w : Str) (c : Char) (cr : Str) (animate : Bool)
    (e p : List String) (k : Nat) (st2 : St)
    (hw : w = c :: cr)
    (hsplit : splitOnSpace w = [w])
    (hexc : findExc (lowerStr (breakAccents w)) = some e)
    (hscan : scanPatterns (forceLookup none (lowerStr (breakAccents w)))
        ((e.getD 1 "").toList) St.init patterns = (some (p, k), st2))
    (hne : renderSlot p (some e) (((e.getD 1 "").toList).take k) st2 animate
        (czUpper c == c) 2 ≠ []) :
    ∀ j, 2 ≤ j → j ≤ 14 →
      (inflectSlots (String.mk w) animate).map (fun r => slotOf r j) =
        some (renderSlot p (some e) (((e.getD 1 "").toList).take k) st2 animate
          (czUpper c == c) j) := by
  intro j hj2 hj14
  have hp : processWord animate none St.init w =
      some ([mkRec w p (some e) (((e.getD 1 "").toList).take k) st2 animate
        (czUpper c == c)], some (p.getD 0 ""), st2) := by
    subst hw
    unfold processWord
    dsimp only
    rw [hexc]
    simp only [baseWordOf]
    rw [hscan]
    dsimp only
    rw [if_neg hne]
  have hres := inflect_single (String.mk w) animate St.init w _ _ _ hsplit hp
  unfold inflectSlots
  rw [hres]
  simp only [Option.map_some']
  rw [slotOf_map (fun j => (recGet (mkRec w p (some e)
    (((e.getD 1 "").toList).take k) st2 animate (czUpper c == c)) j).getD [])
    j (le_trans (by decide) hj2) hj14]
  rw [recGet_mkRec _ _ _ _ _ _ _ j hj2 hj14]
  rfl

/-- C7: for a word found in the exception table, the pattern scan runs on
the exception's rewritten stem, the prefix of every rendered form is a
prefix of that stem (`stem.take k`), and each form slot 2–14 is rendered
from the pattern that matched the stem — with slot 4 overridden by the
exception (visible in `renderSlot`); the literal word's own suffix
stripping plays no role. -/
theorem c7_theorem (w : Str) (c : Char) (cr : Str) (animate : Bool)
    (e p : List String) (k : Nat) (st2 : St)
    (hw : w = c :: cr)
    (hsplit : splitOnSpace w = [w])
    (hexc : findExc (lowerStr (breakAccents w)) = some e)
    (hscan : scanPatterns (forceLookup none (lowerStr (breakAccents w)))
        ((e.getD 1 "").toList) St.init patterns = (some (p, k), st2))
    (hne : renderSlot p (some e) (((e.getD 1 "").toList).take k) st2 animate
        (czUpper c == c) 2 ≠ []) :
    ∀ j, 2 ≤ j → j ≤ 14 →
      (inflectSlots (String.mk w) animate).map (fun r => slotOf r j) =
        some (renderSlot p (some e) (((e.getD 1 "").toList).take k) st2 animate
          (czUpper c == c) j) :=
  exception_slots w c cr animate e p k st2 hw hsplit hexc hscan hne

/-- C7, witness: "pes" is declined from the exception stem "ps": the
instrumental (slot 7) is "psem", not a form built on the literal "pes". -/
theorem c7_witness :
    (inflectSlots (String.mk "pes".toList) false).map (fun r => slotOf r 7) =
      some "psem".toList := by
  have h := c7_theorem "pes".toList 'p' "es".toList false ["pes", "ps", "psa"]
    ["m", "-([dglmnpbtvzs])", "0u/0a", "0u/0ovi", "0/0a", "0e", "0u/0ovi",
      "0em", "0y/0ové", "0ů", "0ům", "0y", "0y/0ové", "0ech", "0y"]
    1 ⟨some 's', none⟩ (by rfl) (by rfl) (by rfl) (by rfl) (by decide)
    7 (by decide) (by decide)
  exact h.trans (by rfl)

/-! ## C10: the exception's fourth form is unconditionally capitalized -/

/-- C10: for any word found in the exception table whose rewritten stem is
matched by some pattern (and which pushes a single record), form slot 4 is
the exception's override with its first letter uppercased by
`capitalize`, regardless of the capitalization of the input word. -/
theorem c10_theorem (w : Str) (c : Char) (cr : Str) (animate : Bool)
    (e p : List String) (k : Nat) (st2 : St)
    (hw : w = c :: cr)
    (hsplit : splitOnSpace w = [w])
    (hexc : findExc (lowerStr (breakAccents w)) = some e)
    (hscan : scanPatterns (forceLookup none (lowerStr (breakAccents w)))
        ((e.getD 1 "").toList) St.init patterns = (some (p, k), st2))
    (hne : renderSlot p (some e) (((e.getD 1 "").toList).take k) st2 animate
        (czUpper c == c) 2 ≠ []) :
    (inflectSlots (String.mk w) animate).map (fun r => slotOf r 4) =
      some (capitalize (e.getD 2 "").toList) :=
  exception_slots w c cr animate e p k st2 hw hsplit hexc hscan hne 4
    (by decide) (by decide)

/-- C10, witness: `inflect("pes")` yields "Psa" in form slot 4 although
the input is all lowercase. -/
theorem c10_witness :
    (inflectSlots (String.mk "pes".toList) false).map (fun r => slotOf r 4) =
      some "Psa".toList := by
  have h := c10_theorem "pes".toList 'p' "es".toList false ["pes", "ps", "psa"]
    ["m", "-([dglmnpbtvzs])", "0u/0a", "0u/0ovi", "0/0a", "0e", "0u/0ovi",
      "0em", "0y/0ové", "0ů", "0ům", "0y", "0y/0ové", "0ech", "0y"]
    1 ⟨some 's', none⟩ (by rfl) (by rfl) (by rfl) (by rfl) (by decide)
  exact h.trans (by rfl)

/-! ## C5: the output never carries the intermediate markers — where it holds -/

theorem markerFree_cons_safe (a : Char) (x : Str)
    (ha : (a == 'ď' || a == 'ť' || a == 'ň') = false) :
    markerFree (a :: x) = markerFree x := by
  cases x with
  | nil => simp [markerFree]
  | cons b y => simp [markerFree, isMarker, ha]

theorem fixAccents_head_ie (r : Str) :
    ∀ h t, fixAccents r = h :: t → (h = 'i' ∨ h = 'e') → r.head? = some h := by
  induction r using fixAccents.induct with
  | case1 r ih =>
    intro h t heq hie
    rw [show fixAccents ('ď' :: 'i' :: r) = 'd' :: 'i' :: fixAccents r from rfl] at heq
    obtain ⟨rfl, -⟩ := List.cons.inj heq
    rcases hie with h' | h' <;> simp at h'
  | case2 r ih =>
    intro h t heq hie
    rw [show fixAccents ('ť' :: 'i' :: r) = 't' :: 'i' :: fixAccents r from rfl] at heq
    obtain ⟨rfl, -⟩ := List.cons.inj heq
    rcases hie with h' | h' <;> simp at h'
  | case3 r ih =>
    intro h t heq hie
    rw [show fixAccents ('ň' :: 'i' :: r) = 'n' :: 'i' :: fixAccents r from rfl] at heq
    obtain ⟨rfl, -⟩ := List.cons.inj heq
    rcases hie with h' | h' <;> simp at h'
  | case4 r ih =>
    intro h t heq hie
    rw [show fixAccents ('ď' :: 'e' :: r) = 'd' :: 'ě' :: fixAccents r from rfl] at heq
    obtain ⟨rfl, -⟩ := List.cons.inj heq
    rcases hie with h' | h' <;> simp at h'
  | case5 r ih =>
    intro h t heq hie
    rw [show fixAccents ('ť' :: 'e' :: r) = 't' :: 'ě' :: fixAccents r from rfl] at heq
    obtain ⟨rfl, -⟩ := List.cons.inj heq
    rcases hie with h' | h' <;> simp at h'
  | case6 r ih =>
    intro h t heq hie
    rw [show fixAccents ('ň' :: 'e' :: r) = 'n' :: 'ě' :: fixAccents r from rfl] at heq
    obtain ⟨rfl, -⟩ := List.cons.inj heq
    rcases hie with h' | h' <;> simp at h'
  | case7 c r h1 h2 h3 h4 h5 h6 ih =>
    intro h t heq hie
    rw [fixAccents.eq_7 c r h1 h2 h3 h4 h5 h6] at heq
    obtain ⟨rfl, -⟩ := List.cons.inj heq
    rfl
  | case8 =>
    intro h t heq hie
    simp [fixAccents] at heq

theorem fixAccents_markerFree (l : Str) : markerFree (fixAccents l) = true := by
  induction l using fixAccents.induct with
  | case1 r ih =>
    rw [show fixAccents ('ď' :: 'i' :: r) = 'd' :: 'i' :: fixAccents r from rfl]
    rw [markerFree_cons_safe 'd' _ (by decide), markerFree_cons_safe 'i' _ (by decide)]
    exact ih
  | case2 r ih =>
    rw [show fixAccents ('ť' :: 'i' :: r) = 't' :: 'i' :: fixAccents r from rfl]
    rw [markerFree_cons_safe 't' _ (by decide), markerFree_cons_safe 'i' _ (by decide)]
    exact ih
  | case3 r ih =>
    rw [show fixAccents ('ň' :: 'i' :: r) = 'n' :: 'i' :: fixAccents r from rfl]
    rw [markerFree_cons_safe 'n' _ (by decide), markerFree_cons_safe 'i' _ (by decide)]
    exact ih
  | case4 r ih =>
    rw [show fixAccents ('ď' :: 'e' :: r) = 'd' :: 'ě' :: fixAccents r from rfl]
    rw [markerFree_cons_safe 'd' _ (by decide), markerFree_cons_safe 'ě' _ (by decide)]
    exact ih
  | case5 r ih =>
    rw [show fixAccents ('ť' :: 'e' :: r) = 't' :: 'ě' :: fixAccents r from rfl]
    rw [markerFree_cons_safe 't' _ (by decide), markerFree_cons_safe 'ě' _ (by decide)]
    exact ih
  | case6 r ih =>
    rw [show fixAccents ('ň' :: 'e' :: r) = 'n' :: 'ě' :: fixAccents r from rfl]
    rw [markerFree_cons_safe 'n' _ (by decide), markerFree_cons_safe 'ě' _ (by decide)]
    exact ih
  | case7 c r h1 h2 h3 h4 h5 h6 ih =>
    rw [fixAccents.eq_7 c r h1 h2 h3 h4 h5 h6]
    by_cases hc : (c == 'ď' || c == 'ť' || c == 'ň') = true
    · cases hfx : fixAccents r with
      | nil => rfl
      | cons h t =>
        have hmf : markerFree (h :: t) = true := hfx ▸ ih
        by_cases hh : (h == 'i' || h == 'e') = true
        · exfalso
          have hie : h = 'i' ∨ h = 'e' := by
            rcases Bool.or_eq_true_iff.mp hh with h' | h'
            · exact Or.inl (by simpa using h')
            · exact Or.inr (by simpa using h')
          have hhead := fixAccents_head_ie r h t hfx hie
          obtain ⟨r', rfl⟩ : ∃ r', r = h :: r' := by
            cases r with
            | nil => simp at hhead
            | cons a b => exact ⟨b, by simpa using (by simpa using hhead : a = h) ▸ rfl⟩
          have hcc : c = 'ď' ∨ c = 'ť' ∨ c = 'ň' := by
            rcases Bool.or_eq_true_iff.mp hc with h' | h'
            · rcases Bool.or_eq_true_iff.mp h' with h'' | h''
              · exact Or.inl (by simpa using h'')
              · exact Or.inr (Or.inl (by simpa using h''))
            · exact Or.inr (Or.inr (by simpa using h'))
          rcases hie with rfl | rfl <;> rcases hcc with rfl | rfl | rfl
          · exact h1 r' rfl rfl
          · exact h2 r' rfl rfl
          · exact h3 r' rfl rfl
          · exact h4 r' rfl rfl
          · exact h5 r' rfl rfl
          · exact h6 r' rfl rfl
        · have hh' : (h == 'i' || h == 'e') = false := Bool.eq_false_iff.mpr hh
          have hm : isMarker c h = false := by simp [isMarker, hh']
          simp [markerFree, hm, hmf]
    · rw [markerFree_cons_safe c _ (Bool.eq_false_iff.mpr hc)]
      exact ih
  | case8 => rfl

theorem czUpper_not_marker_start (c : Char) :
    (czUpper c == 'ď' || czUpper c == 'ť' || czUpper c == 'ň') = false := by
  unfold czUpper
  cases hf : czMap.find? (fun p => p.1 == c) with
  | none =>
    simp only [Option.map_none', Option.getD_none]
    have hnot := List.find?_eq_none.mp hf
    by_cases h1 : c = 'ď'
    · exact absurd (by simp [h1]) (hnot ('ď', 'Ď') (by decide))
    · by_cases h2 : c = 'ť'
      · exact absurd (by simp [h2]) (hnot ('ť', 'Ť') (by decide))
      · by_cases h3 : c = 'ň'
        · exact absurd (by simp [h3]) (hnot ('ň', 'Ň') (by decide))
        · simp [h1, h2, h3]
  | some pr =>
    simp only [Option.map_some', Option.getD_some]
    have hm := List.mem_of_find?_eq_some hf
    have hall : ∀ q ∈ czMap,
        (q.2 == 'ď' || q.2 == 'ť' || q.2 == 'ň') = false := by decide
    exact hall pr hm

theorem capitalize_markerFree (l : Str) (h : markerFree l = true) :
    markerFree (capitalize l) = true := by
  cases l with
  | nil => rfl
  | cons c r =>
    show markerFree (czUpper c :: r) = true
    cases r with
    | nil => rfl
    | cons b t =>
      have hm : isMarker (czUpper c) b = false := by
        simp [isMarker, czUpper_not_marker_start c]
      have h' : isMarker c b = false ∧ markerFree (b :: t) = true := by
        simpa [markerFree] using h
      simp [markerFree, hm, h'.2]

/-- The fourth-form overrides in the exception table contain no marker
pair themselves. -/
theorem exceptions_form4_markerFree :
    exceptions.all (fun e => markerFree (e.getD 2 "").toList) = true := by decide

theorem renderSlot_markerFree (p : List String) (exc : Option (List String))
    (pref : Str) (st : St) (animate isUp : Bool) (j : Nat)
    (hexc : ∀ e, exc = some e → markerFree (e.getD 2 "").toList = true) :
    markerFree (renderSlot p exc pref st animate isUp j) = true := by
  unfold renderSlot
  cases exc with
  | some e =>
    dsimp only
    by_cases hj : j = 4
    · rw [if_pos hj]
      exact capitalize_markerFree _ (hexc e rfl)
    · rw [if_neg hj]
      cases isUp
      · simpa using fixAccents_markerFree _
      · simpa using capitalize_markerFree _ (fixAccents_markerFree _)
  | none =>
    cases isUp
    · simpa using fixAccents_markerFree _
    · simpa using capitalize_markerFree _ (fixAccents_markerFree _)

/-- C5, counterexample: "diry" contains the target digraph "di" but
matches no pattern, so its accent-broken form "ďiry" — marker pair
included — is emitted unrepaired in slots 1 through 13. -/
theorem c5_counterexample :
    hasTargetDigraph "diry".toList = true ∧
      (inflectSlots "diry" false).map (fun r => markerFree (slotOf r 2)) =
        some false := by
  exact ⟨by rfl, by rfl⟩

/-- C5 (amended): for a nonempty single word containing a target digraph
that is declined by a pattern match pushing a single record — and whose
original spelling contains no marker pair — every one of the 14 output
form slots is free of the intermediate marker pairs: `fixAccents` runs on
every rendered form and removes every marker, and the exception override
of form 4 is marker-free as well.  Unmatched words escape this guarantee
(their slots carry the raw accent-broken word). -/
theorem c5_theorem (w : Str) (animate : Bool) (recd : Rec)
    (g' : Option String) (st' : St)
    (hsplit : splitOnSpace w = [w])
    (hp : processWord animate none St.init w = some ([recd], g', st'))
    (h14 : recGet recd 14 ≠ none)
    (hmf : markerFree w = true)
    (htd : hasTargetDigraph w = true) :
    ∀ j, 1 ≤ j → j ≤ 14 →
      (inflectSlots (String.mk w) animate).map (fun r => markerFree (slotOf r j)) =
        some true := by
  obtain ⟨c, cr, p, k, hw, hrec, hscan⟩ :=
    processWord_single_inv animate none St.init w recd g' st' hp h14
  have hres := inflect_single (String.mk w) animate St.init w recd g' st' hsplit hp
  intro j hj1 hj14
  unfold inflectSlots
  rw [hres]
  simp only [Option.map_some']
  rw [slotOf_map (fun j => (recGet recd j).getD []) j hj1 hj14]
  rcases Nat.lt_or_ge j 2 with hj | hj
  · have hj' : j = 1 := by omega
    subst hj'
    rw [hrec, recGet_mkRec_one]
    simpa using hmf
  · rw [hrec, recGet_mkRec _ _ _ _ _ _ _ j hj hj14]
    have hall : ∀ e, findExc (lowerStr (breakAccents w)) = some e →
        markerFree (e.getD 2 "").toList = true := by
      intro e he
      have hmem := List.mem_of_find?_eq_some he
      exact List.all_eq_true.mp exceptions_form4_markerFree e hmem
    simpa using renderSlot_markerFree p _ _ st' animate (czUpper c == c) j hall

/-- C5, witness: "Martin" (broken internally to "Marťin") comes out of
every checked slot marker-free, e.g. slot 7 "Martinem". -/
theorem c5_witness :
    (inflectSlots (String.mk "Martin".toList) false).map
        (fun r => markerFree (slotOf r 7)) = some true :=
  c5_theorem "Martin".toList false
    (mkRec "Martin".toList
      ["m", "-([dglmnpbtvzs])", "0u/0a", "0u/0ovi", "0/0a", "0e", "0u/0ovi",
        "0em", "0y/0ové", "0ů", "0ům", "0y", "0y/0ové", "0ech", "0y"]
      none "Marťi".toList ⟨some 'n', none⟩ false true)
    (some "m") ⟨some 'n', none⟩ (by rfl) (by rfl) (by decide) (by rfl) (by rfl)
    7 (by decide) (by decide)

/-! ## C9: the scratch state carries no observable information -/

theorem itemsMatch_len (items : List Item) :
    ∀ (s : Str) (caps : List Char), itemsMatch items s = some caps →
      caps.length = groupCount items := by
  induction items with
  | nil =>
    intro s caps h
    cases s with
    | nil => simp [itemsMatch] at h; subst h; rfl
    | cons c s' => simp [itemsMatch] at h
  | cons it its ih =>
    intro s caps h
    cases s with
    | nil => cases it <;> simp [itemsMatch] at h
    | cons c s' =>
      cases it with
      | lit pc =>
        unfold itemsMatch at h
        split at h
        · have := ih s' caps h
          simpa [groupCount, List.filter] using this
        · exact absurd h (by simp)
      | group cls =>
        unfold itemsMatch at h
        split at h
        · cases hm : itemsMatch its s' with
          | none => rw [hm] at h; simp at h
          | some caps' =>
            rw [hm] at h
            simp only [Option.some.injEq] at h
            subst h
            have := ih s' caps' hm
            simp [groupCount, List.filter, List.length_cons, this]
        · exact absurd h (by simp)

theorem searchAt_len (items : List Item) :
    ∀ (w : Str) (k : Nat) (caps : List Char), searchAt items w = some (k, caps) →
      caps.length = groupCount items := by
  intro w
  induction w with
  | nil =>
    intro k caps h
    unfold searchAt at h
    cases hm : itemsMatch items [] with
    | none => rw [hm] at h; simp at h
    | some caps' =>
      rw [hm] at h
      simp only [Option.some.injEq, Prod.mk.injEq] at h
      exact h.2 ▸ itemsMatch_len items [] caps' hm
  | cons c r ih =>
    intro k caps h
    unfold searchAt at h
    cases hm : itemsMatch items (c :: r) with
    | some caps' =>
      rw [hm] at h
      simp only [Option.some.injEq, Prod.mk.injEq] at h
      exact h.2 ▸ itemsMatch_len items (c :: r) caps' hm
    | none =>
      rw [hm] at h
      cases hs : searchAt items r with
      | none => rw [hs] at h; simp at h
      | some p =>
        rw [hs] at h
        obtain ⟨k', caps'⟩ := p
        simp only [Option.map_some', Option.some.injEq, Prod.mk.injEq] at h
        exact h.2 ▸ ih k' caps' hs

theorem itemsMatch_caps (items : List Item) :
    ∀ (s : Str) (caps : List Char), itemsMatch items s = some caps →
      ∀ x ∈ caps, ∃ cls, Item.group cls ∈ items ∧ inClass x cls = true := by
  induction items with
  | nil =>
    intro s caps h
    cases s with
    | nil => simp [itemsMatch] at h; subst h; simp
    | cons c s' => simp [itemsMatch] at h
  | cons it its ih =>
    intro s caps h
    cases s with
    | nil => cases it <;> simp [itemsMatch] at h
    | cons c s' =>
      cases it with
      | lit pc =>
        unfold itemsMatch at h
        split at h
        · intro x hx
          obtain ⟨cls, hmem, hin⟩ := ih s' caps h x hx
          exact ⟨cls, List.mem_cons_of_mem _ hmem, hin⟩
        · exact absurd h (by simp)
      | group cls =>
        unfold itemsMatch at h
        split at h
        · rename_i hin
          cases hm : itemsMatch its s' with
          | none => rw [hm] at h; simp at h
          | some caps' =>
            rw [hm] at h
            simp only [Option.some.injEq] at h
            subst h
            intro x hx
            rcases List.mem_cons.mp hx with rfl | hx'
            · exact ⟨cls, List.mem_cons_self _ _, hin⟩
            · obtain ⟨cls', hmem, hin'⟩ := ih s' caps' hm x hx'
              exact ⟨cls', List.mem_cons_of_mem _ hmem, hin'⟩
        · exact absurd h (by simp)

theorem searchAt_caps (items : List Item) :
    ∀ (w : Str) (k : Nat) (caps : List Char), searchAt items w = some (k, caps) →
      ∀ x ∈ caps, ∃ cls, Item.group cls ∈ items ∧ inClass x cls = true := by
  intro w
  induction w with
  | nil =>
    intro k caps h
    unfold searchAt at h
    cases hm : itemsMatch items [] with
    | none => rw [hm] at h; simp at h
    | some caps' =>
      rw [hm] at h
      simp only [Option.some.injEq, Prod.mk.injEq] at h
      exact h.2 ▸ itemsMatch_caps items [] caps' hm
  | cons c r ih =>
    intro k caps h
    unfold searchAt at h
    cases hm : itemsMatch items (c :: r) with
    | some caps' =>
      rw [hm] at h
      simp only [Option.some.injEq, Prod.mk.injEq] at h
      exact h.2 ▸ itemsMatch_caps items (c :: r) caps' hm
    | none =>
      rw [hm] at h
      cases hs : searchAt items r with
      | none => rw [hs] at h; simp at h
      | some p =>
        rw [hs] at h
        obtain ⟨k', caps'⟩ := p
        simp only [Option.map_some', Option.some.injEq, Prod.mk.injEq] at h
        exact h.2 ▸ ih k' caps' hs

theorem matchCaps_len (spec : String) (w : Str) (k : Nat) (caps : List Char)
    (h : matchCaps spec w = some (k, caps)) :
    caps.length = specGroupCount spec := by
  unfold matchCaps at h
  unfold specGroupCount
  split at h
  · rename_i r heq
    cases hp : parseItems r with
    | none => rw [hp] at h; simp at h
    | some items =>
      rw [hp] at h
      simp only [hp]
      exact searchAt_len items w k caps h
  · rename_i heq
    split at h
    · simp only [Option.some.injEq, Prod.mk.injEq] at h
      rw [← h.2]
      rfl
    · simp at h

/-- Rows whose specification captures nothing have templates free of both
digit keys — with the single exception of the `-io` row, which does
reference key 0 without capturing anything.  That row is dead code: the
same-gender row `-o` earlier in the table matches every word `-io`
matches (`scan_io_unreachable` below). -/
theorem patterns_zero_group :
    patterns.all (fun row => (!(specGroupCount (row.getD 1 "") == 0)) ||
      row.all (fun s => !(decide ('0' ∈ s.toList)) && !(decide ('1' ∈ s.toList))) ||
      (row == ["s", "-io", "0a", "0u", "0", "0", "0u", "0em", "0a", "0í",
        "0ům", "0a", "0a", "0iích", "0y"])) = true := by decide

/-- Rows with exactly one capture group never reference key 1, whose slot
may hold a stale value. -/
theorem patterns_one_group :
    patterns.all (fun row => (!(specGroupCount (row.getD 1 "") == 1)) ||
      row.all (fun s => !(decide ('1' ∈ s.toList)))) = true := by decide

theorem patterns_classes_ok :
    patterns.all (fun row => specClassesOK (row.getD 1 "")) = true := by decide

theorem all_getD (l : List String) (P : String → Bool) (h : l.all P = true)
    (hd : P "" = true) (j : Nat) : P (l.getD j "") = true := by
  rcases Nat.lt_or_ge j l.length with hj | hj
  · rw [List.getD_eq_getElem l "" hj]
    exact List.all_eq_true.mp h _ (List.getElem_mem hj)
  · rw [List.getD_eq_default _ _ hj]
    exact hd

theorem row_digits_zero (p : List String) (hmem : p ∈ patterns)
    (hzero : specGroupCount (p.getD 1 "") = 0) :
    (∀ j, '0' ∉ (p.getD j "").toList ∧ '1' ∉ (p.getD j "").toList) ∨
      p = ["s", "-io", "0a", "0u", "0", "0", "0u", "0em", "0a", "0í",
        "0ům", "0a", "0a", "0iích", "0y"] := by
  have hrow := List.all_eq_true.mp patterns_zero_group p hmem
  rw [hzero] at hrow
  simp only [beq_self_eq_true, Bool.not_true, Bool.false_or,
    Bool.or_eq_true, beq_iff_eq] at hrow
  rcases hrow with hrow | hrow
  · left
    intro j
    have := all_getD p _ hrow (by decide) j
    simpa using this
  · exact Or.inr hrow

theorem row_digits_one (p : List String) (hmem : p ∈ patterns)
    (hone : specGroupCount (p.getD 1 "") = 1) (j : Nat) :
    '1' ∉ (p.getD j "").toList := by
  have hrow := List.all_eq_true.mp patterns_one_group p hmem
  rw [hone] at hrow
  simp only [beq_self_eq_true, Bool.not_true, Bool.false_or] at hrow
  have := all_getD p _ hrow (by decide) j
  simpa using this

theorem matchCaps_caps_ok (spec : String) (w : Str) (k : Nat)
    (caps : List Char) (hok : specClassesOK spec = true)
    (h : matchCaps spec w = some (k, caps)) :
    ∀ x ∈ caps, x ≠ '0' ∧ x ≠ '1' := by
  unfold matchCaps at h
  unfold specClassesOK at hok
  split at h
  · rename_i r heq
    cases hp : parseItems r with
    | none => rw [hp] at h; simp at h
    | some items =>
      rw [hp] at h
      simp only [heq, hp] at hok
      intro x hx
      obtain ⟨cls, hclsmem, hin⟩ := searchAt_caps items w k caps h x hx
      have hcls := List.all_eq_true.mp hok _ hclsmem
      dsimp only at hcls
      obtain ⟨y, hy, hxy⟩ := List.any_eq_true.mp hin
      have hylow := List.all_eq_true.mp hcls y hy
      simp only [Bool.and_eq_true, Bool.not_eq_true', beq_eq_false_iff_ne, ne_eq] at hylow
      have hxy' : czLower x = czLower y := by
        simpa [charEqCI] using hxy
      constructor
      · intro hx0
        subst hx0
        exact hylow.1 (by simpa using hxy'.symm)
      · intro hx1
        subst hx1
        exact hylow.2 (by simpa using hxy'.symm)
  · rename_i heq
    split at h
    · simp only [Option.some.injEq, Prod.mk.injEq] at h
      rw [← h.2]
      intro x hx
      simp at hx
    · simp at h

theorem cons_decomp_unique {α : Type} (a : α) :
    ∀ (pre pre' post post' : List α),
      pre ++ a :: post = pre' ++ a :: post' → a ∉ pre → a ∉ pre' → pre = pre' := by
  intro pre
  induction pre with
  | nil =>
    intro pre' post post' heq ha ha'
    cases pre' with
    | nil => rfl
    | cons b rest =>
      simp only [List.nil_append, List.cons_append, List.cons.injEq] at heq
      exact absurd (heq.1 ▸ List.mem_cons_self _ _) ha'
  | cons b rest ih =>
    intro pre' post post' heq ha ha'
    cases pre' with
    | nil =>
      simp only [List.cons_append, List.nil_append, List.cons.injEq] at heq
      exact absurd (heq.1 ▸ List.mem_cons_self b rest) ha
    | cons b' rest' =>
      simp only [List.cons_append, List.cons.injEq] at heq
      rw [heq.1, ih rest' post post' heq.2
        (fun hm => ha (List.mem_cons_of_mem _ hm))
        (fun hm => ha' (List.mem_cons_of_mem _ hm))]

/-- Whenever the two-item suffix `io` matches somewhere, the one-item
suffix `o` matches one position further right. -/
theorem searchAt_io (w : Str) :
    ∀ (k : Nat) (caps : List Char),
      searchAt [Item.lit 'i', Item.lit 'o'] w = some (k, caps) →
      searchAt [Item.lit 'o'] w = some (k + 1, []) := by
  induction w with
  | nil => intro k caps h; simp [searchAt, itemsMatch] at h
  | cons c r ih =>
    intro k caps h
    unfold searchAt at h
    cases hm : itemsMatch [Item.lit 'i', Item.lit 'o'] (c :: r) with
    | some caps0 =>
      rw [hm] at h
      simp only [Option.some.injEq, Prod.mk.injEq] at h
      obtain ⟨hk, hcaps⟩ := h
      subst hk
      unfold itemsMatch at hm
      split at hm
      · rename_i hci
        cases r with
        | nil => simp [itemsMatch] at hm
        | cons d r' =>
          unfold itemsMatch at hm
          split at hm
          · rename_i hdo
            cases r' with
            | nil =>
              unfold searchAt
              cases hco : charEqCI c 'o' with
              | false =>
                simp only [itemsMatch, hco]
                unfold searchAt
                simp [itemsMatch, hdo]
              | true =>
                simp only [itemsMatch, hco, if_true]
                unfold searchAt
                simp [itemsMatch, hdo]
            | cons e r'' => exact Option.noConfusion hm
          · simp at hm
      · simp at hm
    | none =>
      rw [hm] at h
      cases hs : searchAt [Item.lit 'i', Item.lit 'o'] r with
      | none => rw [hs] at h; simp at h
      | some pr =>
        rw [hs] at h
        obtain ⟨k', caps'⟩ := pr
        simp only [Option.map_some', Option.some.injEq, Prod.mk.injEq] at h
        obtain ⟨hk, hcaps⟩ := h
        have hr := ih k' caps' hs
        unfold searchAt
        cases hmo : itemsMatch [Item.lit 'o'] (c :: r) with
        | some z =>
          exfalso
          unfold itemsMatch at hmo
          split at hmo
          · cases r with
            | nil => simp [searchAt, itemsMatch] at hs
            | cons d r' => simp [itemsMatch] at hmo
          · simp at hmo
        | none =>
          rw [hr]
          simp [← hk]

theorem matchCaps_io (w : Str) (k : Nat) (caps : List Char)
    (h : matchCaps "-io" w = some (k, caps)) :
    matchCaps "-o" w = some (k + 1, []) := by
  have h1 : matchCaps "-io" w = searchAt [Item.lit 'i', Item.lit 'o'] w := rfl
  have h2 : matchCaps "-o" w = searchAt [Item.lit 'o'] w := rfl
  rw [h2]
  exact searchAt_io w k caps (h1 ▸ h)

theorem skipCond_eq_of_gender (g : Option String) (q q' : List String)
    (h : q.getD 0 "" = q'.getD 0 "") : skipCond g q = skipCond g q' := by
  cases g with
  | none => rfl
  | some s =>
    simp only [skipCond]
    rw [h]

/-- The first-match property of the pattern loop: a successful scan
splits the table into skipped-or-failing rows, the matched row, and the
rest. -/
theorem scanPatterns_succ (g : Option String) (bw : Str)
    (ps : List (List String)) :
    ∀ (s : St) (p : List String) (k : Nat) (s' : St),
      scanPatterns g bw s ps = (some (p, k), s') →
      ∃ pre post caps, ps = pre ++ p :: post ∧
        (∀ q ∈ pre, skipCond g q = true ∨ matchCaps (q.getD 1 "") bw = none) ∧
        skipCond g p = false ∧
        matchCaps (p.getD 1 "") bw = some (k, caps) ∧
        s' = assignRepl caps s := by
  induction ps with
  | nil => intro s p k s' h; simp [scanPatterns] at h
  | cons q qs ih =>
    intro s p k s' h
    unfold scanPatterns at h
    by_cases hskip : skipCond g q = true
    · rw [if_pos hskip] at h
      obtain ⟨pre, post, caps, hps, hpre, hnsk, hmc, hs'⟩ := ih s p k s' h
      refine ⟨q :: pre, post, caps, by rw [hps]; rfl, ?_, hnsk, hmc, hs'⟩
      intro x hx
      rcases List.mem_cons.mp hx with rfl | hx'
      · exact Or.inl hskip
      · exact hpre x hx'
    · rw [if_neg hskip] at h
      rw [matchPat_eq] at h
      cases hmc : matchCaps (q.getD 1 "") bw with
      | some pkc =>
        obtain ⟨k0, caps0⟩ := pkc
        rw [hmc] at h
        simp only [Option.map_some', Prod.mk.injEq, Option.some.injEq] at h
        obtain ⟨⟨hq, hk⟩, hst⟩ := h
        subst hq
        exact ⟨[], qs, caps0, rfl, by simp, Bool.eq_false_iff.mpr hskip,
          hk ▸ hmc, hst.symm⟩
      | none =>
        rw [hmc] at h
        simp only [Option.map_none'] at h
        obtain ⟨pre, post, caps, hps, hpre, hnsk, hmcp, hs'⟩ := ih s p k s' h
        refine ⟨q :: pre, post, caps, by rw [hps]; rfl, ?_, hnsk, hmcp, hs'⟩
        intro x hx
        rcases List.mem_cons.mp hx with rfl | hx'
        · exact Or.inr hmc
        · exact hpre x hx'

/-- A successful scan of the full table yields a state update and digit
conditions strong enough to render identically from any prior state: the
captures determine the overwritten slots, the matched row's templates
never reference a slot left stale — the one candidate violation, the
`-io` row, is unreachable because the earlier same-gender `-o` row
matches whenever it would. -/
theorem scan_render_safe (g : Option String) (bw : Str) (s : St)
    (p : List String) (k : Nat) (s' : St)
    (h : scanPatterns g bw s patterns = (some (p, k), s')) :
    ∃ caps, s' = assignRepl caps s ∧
      matchCaps (p.getD 1 "") bw = some (k, caps) ∧
      (caps = [] → ∀ j, '0' ∉ (p.getD j "").toList ∧ '1' ∉ (p.getD j "").toList) ∧
      (∀ a, caps = [a] → (∀ j, '1' ∉ (p.getD j "").toList) ∧ a ≠ '1') := by
  obtain ⟨pre, post, caps, hps, hpre, hnsk, hmc, hs'⟩ :=
    scanPatterns_succ g bw patterns s p k s' h
  have hmem : p ∈ patterns := by
    rw [hps]
    exact List.mem_append.mpr (Or.inr (List.mem_cons_self _ _))
  refine ⟨caps, hs', hmc, ?_, ?_⟩
  · intro hcaps
    subst hcaps
    have hzero : specGroupCount (p.getD 1 "") = 0 := by
      simpa using (matchCaps_len _ _ _ _ hmc).symm
    rcases row_digits_zero p hmem hzero with hok | hio
    · exact hok
    · exfalso
      subst hio
      have hnotinpre : (["s", "-io", "0a", "0u", "0", "0", "0u", "0em", "0a",
          "0í", "0ům", "0a", "0a", "0iích", "0y"] : List String) ∉ pre := by
        intro hin
        rcases hpre _ hin with hsk | hfail
        · rw [hnsk] at hsk
          exact Bool.false_ne_true hsk
        · rw [hfail] at hmc
          exact Option.noConfusion hmc
      have hconc : patterns = patterns.take 146 ++
          (["s", "-io", "0a", "0u", "0", "0", "0u", "0em", "0a",
            "0í", "0ům", "0a", "0a", "0iích", "0y"] : List String) ::
          patterns.drop 147 := by decide
      have hpre_eq : pre = patterns.take 146 :=
        cons_decomp_unique _ pre (patterns.take 146) post (patterns.drop 147)
          (hps.symm.trans hconc) hnotinpre (by decide)
      have hrowO : (["s", "-o", "a", "u", "o", "o", "u", "em", "a", "", "ům",
          "a", "a", "ech", "y"] : List String) ∈ pre := by
        rw [hpre_eq]
        decide
      rcases hpre _ hrowO with hsk | hfail
      · rw [skipCond_eq_of_gender g
          (["s", "-o", "a", "u", "o", "o", "u", "em", "a", "", "ům",
            "a", "a", "ech", "y"] : List String)
          (["s", "-io", "0a", "0u", "0", "0", "0u", "0em", "0a", "0í", "0ům",
            "0a", "0a", "0iích", "0y"] : List String) rfl, hnsk] at hsk
        exact Bool.false_ne_true hsk
      · have hio2 := matchCaps_io bw k [] hmc
        rw [show ((["s", "-o", "a", "u", "o", "o", "u", "em", "a", "", "ům",
            "a", "a", "ech", "y"] : List String).getD 1 "") = "-o" from rfl] at hfail
        rw [hio2] at hfail
        exact Option.noConfusion hfail
  · intro a hcaps
    subst hcaps
    have hone : specGroupCount (p.getD 1 "") = 1 := by
      simpa using (matchCaps_len _ _ _ _ hmc).symm
    refine ⟨row_digits_one p hmem hone, ?_⟩
    exact (matchCaps_caps_ok _ bw k [a]
      (List.all_eq_true.mp patterns_classes_ok p hmem) hmc a (by simp)).2

theorem renderSlot_st_indep (p : List String) (exc : Option (List String))
    (pref : Str) (animate isUp : Bool) (j : Nat) (caps : List Char) (s t : St)
    (h0 : caps = [] → '0' ∉ (p.getD j "").toList ∧ '1' ∉ (p.getD j "").toList)
    (h1 : ∀ a, caps = [a] → '1' ∉ (p.getD j "").toList ∧ a ≠ '1') :
    renderSlot p exc pref (assignRepl caps s) animate isUp j =
      renderSlot p exc pref (assignRepl caps t) animate isUp j := by
  have happ : applyRepl (assignRepl caps s) (p.getD j "").toList =
      applyRepl (assignRepl caps t) (p.getD j "").toList := by
    rcases caps with - | ⟨a, caps'⟩
    · obtain ⟨ha, hb⟩ := h0 rfl
      rw [applyRepl_no_digits _ _ ha hb, applyRepl_no_digits _ _ ha hb]
    · rcases caps' with - | ⟨b, rest⟩
      · obtain ⟨ha, hb⟩ := h1 a rfl
        have hone : '1' ∉ replaceFirstChar '0' a (p.getD j "").toList := by
          intro hm
          rcases mem_replaceFirstChar _ _ _ _ hm with h' | h'
          · exact ha h'
          · exact hb h'.symm
        have hgen : ∀ (u : St), u.r0 = some a →
            applyRepl u ((p.getD j "").toList) =
              replaceFirstChar '0' a ((p.getD j "").toList) := by
          intro u hu
          unfold applyRepl
          rw [hu]
          dsimp only
          cases hur : u.r1 with
          | none => rfl
          | some v => exact replaceFirstChar_not_mem '1' v _ hone
        show applyRepl ⟨some a, s.r1⟩ _ = applyRepl ⟨some a, t.r1⟩ _
        rw [hgen ⟨some a, s.r1⟩ rfl, hgen ⟨some a, t.r1⟩ rfl]
      · rfl
  unfold renderSlot
  cases exc with
  | some e =>
    dsimp only
    by_cases hj : j = 4
    · rw [if_pos hj, if_pos hj]
    · rw [if_neg hj, if_neg hj, happ]
  | none =>
    dsimp only
    rw [happ]

theorem scanPatterns_fst_indep (g : Option String) (bw : Str)
    (ps : List (List String)) :
    ∀ (s t : St), (scanPatterns g bw s ps).1 = (scanPatterns g bw t ps).1 := by
  induction ps with
  | nil => intro s t; rfl
  | cons q qs ih =>
    intro s t
    unfold scanPatterns
    by_cases hskip : skipCond g q = true
    · rw [if_pos hskip, if_pos hskip]
      exact ih s t
    · rw [if_neg hskip, if_neg hskip, matchPat_eq, matchPat_eq]
      cases hmc : matchCaps (q.getD 1 "") bw with
      | some pkc =>
        obtain ⟨k0, caps0⟩ := pkc
        simp only [Option.map_some']
      | none =>
        simp only [Option.map_none']
        exact ih s t

theorem processWord_st_indep (animate : Bool) (g : Option String) (s t : St)
    (w : Str) :
    Option.map stripSt (processWord animate g s w) =
      Option.map stripSt (processWord animate g t w) := by
  cases w with
  | nil => rfl
  | cons c cr =>
    unfold processWord
    dsimp only
    have hfst := scanPatterns_fst_indep
      (forceLookup g (lowerStr (breakAccents (c :: cr))))
      (baseWordOf (breakAccents (c :: cr)) (findExc (lowerStr (breakAccents (c :: cr)))))
      patterns s t
    cases hs1 : scanPatterns (forceLookup g (lowerStr (breakAccents (c :: cr))))
        (baseWordOf (breakAccents (c :: cr)) (findExc (lowerStr (breakAccents (c :: cr)))))
        s patterns with
    | mk o1 s1 =>
    cases ht1 : scanPatterns (forceLookup g (lowerStr (breakAccents (c :: cr))))
        (baseWordOf (breakAccents (c :: cr)) (findExc (lowerStr (breakAccents (c :: cr)))))
        t patterns with
    | mk o2 t1 =>
      rw [hs1, ht1] at hfst
      dsimp only at hfst
      subst hfst
      cases o1 with
      | none => rfl
      | some pk =>
        obtain ⟨p, k⟩ := pk
        obtain ⟨caps, hcs, hmcs, h0, h1⟩ := scan_render_safe _ _ s p k s1 hs1
        obtain ⟨caps', hct, hmct, -, -⟩ := scan_render_safe _ _ t p k t1 ht1
        rw [hmcs] at hmct
        have hcaps : caps = caps' := (Prod.mk.inj (Option.some.inj hmct)).2
        subst hcaps
        subst hcs
        subst hct
        have hrender : ∀ j,
            renderSlot p (findExc (lowerStr (breakAccents (c :: cr))))
              ((baseWordOf (breakAccents (c :: cr))
                (findExc (lowerStr (breakAccents (c :: cr))))).take k)
              (assignRepl caps s) animate (czUpper c == c) j =
            renderSlot p (findExc (lowerStr (breakAccents (c :: cr))))
              ((baseWordOf (breakAccents (c :: cr))
                (findExc (lowerStr (breakAccents (c :: cr))))).take k)
              (assignRepl caps t) animate (czUpper c == c) j := by
          intro j
          exact renderSlot_st_indep p _ _ animate _ j caps s t
            (fun hc => h0 hc j) (fun a hc => ⟨(h1 a hc).1 j, (h1 a hc).2⟩)
        have hmk : mkRec (c :: cr) p (findExc (lowerStr (breakAccents (c :: cr))))
              ((baseWordOf (breakAccents (c :: cr))
                (findExc (lowerStr (breakAccents (c :: cr))))).take k)
              (assignRepl caps s) animate (czUpper c == c) =
            mkRec (c :: cr) p (findExc (lowerStr (breakAccents (c :: cr))))
              ((baseWordOf (breakAccents (c :: cr))
                (findExc (lowerStr (breakAccents (c :: cr))))).take k)
              (assignRepl caps t) animate (czUpper c == c) := by
          unfold mkRec
          congr 2
          exact List.map_congr_left (fun j _ => by rw [hrender j])
        dsimp only
        rw [hmk, hrender 2]
        rfl

theorem processWords_st_indep (animate : Bool) (ws : List Str) :
    ∀ (g : Option String) (s t : St),
      Option.map (fun x => x.1) (processWords animate ws g s) =
        Option.map (fun x => x.1) (processWords animate ws g t) := by
  induction ws with
  | nil => intro g s t; rfl
  | cons w ws ih =>
    intro g s t
    have hw := processWord_st_indep animate g s t w
    unfold processWords
    cases hps : processWord animate g s w with
    | none =>
      rw [hps] at hw
      cases hpt : processWord animate g t w with
      | none => rfl
      | some xt =>
        rw [hpt] at hw
        simp at hw
    | some xs =>
      rw [hps] at hw
      cases hpt : processWord animate g t w with
      | none =>
        rw [hpt] at hw
        simp at hw
      | some xt =>
        rw [hpt] at hw
        obtain ⟨recs, g', ss'⟩ := xs
        obtain ⟨rect, g'', ts'⟩ := xt
        simp only [Option.map_some', Option.some.injEq, stripSt] at hw
        obtain ⟨hrec, hg⟩ := Prod.mk.inj hw
        subst hrec
        subst hg
        dsimp only
        have hrest := ih g' ss' ts'
        cases h1 : processWords animate ws g' ss' with
        | none =>
          rw [h1] at hrest
          cases h2 : processWords animate ws g' ts' with
          | none => rfl
          | some yt =>
            rw [h2] at hrest
            simp at hrest
        | some ys =>
          rw [h1] at hrest
          cases h2 : processWords animate ws g' ts' with
          | none =>
            rw [h2] at hrest
            simp at hrest
          | some yt =>
            rw [h2] at hrest
            obtain ⟨ls, ss''⟩ := ys
            obtain ⟨lt, ts''⟩ := yt
            simp only [Option.map_some', Option.some.injEq] at hrest
            subst hrest
            rfl

/-- C9: an `inflect` invocation is observationally self-contained — the
14 returned strings depend only on `(text, animate)`: whatever scratch
state `this.replacements` holds from earlier calls on the same instance,
the result equals that of a freshly constructed instance. -/
theorem c9_theorem (text : String) (animate : Bool) (st : St) :
    (inflect text animate st).map (fun r => r.1) = inflectSlots text animate := by
  unfold inflectSlots inflect
  have h := processWords_st_indep animate ((splitOnSpace text.toList).reverse)
    none st St.init
  cases h1 : processWords animate ((splitOnSpace text.toList).reverse) none st with
  | none =>
    rw [h1] at h
    cases h2 : processWords animate ((splitOnSpace text.toList).reverse) none St.init with
    | none => rfl
    | some yt =>
      rw [h2] at h
      simp at h
  | some ys =>
    rw [h1] at h
    cases h2 : processWords animate ((splitOnSpace text.toList).reverse) none St.init with
    | none =>
      rw [h2] at h
      simp at h
    | some yt =>
      rw [h2] at h
      obtain ⟨ls, ss''⟩ := ys
      obtain ⟨lt, ts''⟩ := yt
      simp only [Option.map_some', Option.some.injEq] at h
      subst h
      rfl

end Inflection
